import Mathlib

/-!
# Verification of the RAG-lite support-chat core

Shallow embedding of the retrieval-and-grounding pipeline of this
repository:
the tokenizer, chunk scorer, retriever, context formatter, conversation
builder and completion client, together with the static knowledge corpus.

Conventions of the embedding:
* JavaScript strings are modelled by `String` (lists of `Char`); the
  operations used by the source (`toLowerCase`, `includes`, `trim`,
  `split(/\s+/)`, `replace(/[^\w\s]/g, ' ')`) are given explicit
  structurally-recursive definitions over `String.data` so that every
  definition is executable by the kernel.  For the ASCII text the corpus
  and the claims range over these agree with the JavaScript semantics.
* JavaScript numbers are modelled by `ℚ`; every score produced by the
  scorer is a small multiple of `1/2`, which float64 represents exactly,
  so `ℚ` arithmetic and comparisons coincide with the source's.
* `Array.prototype.sort` is required by the language standard to be
  stable; the embedding uses `List.insertionSort`, a stable sort.
* The network call of the completion client is abstracted by a
  `FetchOutcome` value describing what the single `fetch` did (success
  with a parsed body, a non-2xx status with an error body, an abort by
  the timeout controller, or another exception); `complete` is the pure
  function from that outcome to the result of the source's `complete`.
-/

/-- JavaScript `\w` (word character): ASCII letter, digit or underscore. -/
def isWordChar (c : Char) : Bool := c.isAlphanum || c == '_'

/-- JavaScript lowercasing `String.prototype.toLowerCase`, character by
character (ASCII case map). -/
def strLower (s : String) : String := String.mk (s.data.map Char.toLower)

/-- Punctuation removal, JavaScript `replace` of every non-word,
non-whitespace character by a space; word characters and whitespace are
kept. -/
def normalizeChar (c : Char) : Char :=
  if isWordChar c || c.isWhitespace then c else ' '

/-- Whitespace splitting, JavaScript `split` on whitespace runs modulo
empty tokens: split at every whitespace
character, keeping the (possibly empty) tokens in between.  The empty
tokens a whitespace run produces are dropped by the length filter of
`extractKeywords`, exactly as in the source. -/
def wsTokens : List Char → List Char → List String
  | [], acc => [String.mk acc.reverse]
  | c :: cs, acc =>
    if c.isWhitespace then String.mk acc.reverse :: wsTokens cs []
    else wsTokens cs (c :: acc)

/-- Test that the first list occurs at the start of the second
(character-wise). -/
def charsStartWith : List Char → List Char → Bool
  | [], _ => true
  | _ :: _, [] => false
  | p :: ps, c :: cs => p == c && charsStartWith ps cs

/-- Test that the first list occurs somewhere in the second
(contiguously). -/
def charsContain (pat : List Char) : List Char → Bool
  | [] => pat.isEmpty
  | c :: cs => charsStartWith pat (c :: cs) || charsContain pat cs

/-- JavaScript `s.includes(sub)`: `sub` is a substring of `s`. -/
def strIncludes (s sub : String) : Bool := charsContain sub.data s.data

/-- Deduplication in first-occurrence order: `[...new Set(xs)]`. -/
def dedupFirstAux (seen : List String) : List String → List String
  | [] => []
  | x :: xs =>
    if x ∈ seen then dedupFirstAux seen xs
    else x :: dedupFirstAux (x :: seen) xs

/-- Deduplication `[...new Set(xs)]`: drop later duplicates, keep first
occurrences. -/
def dedupFirst (xs : List String) : List String := dedupFirstAux [] xs

/-- The fixed `STOP_WORDS` set of the retrieval engine (`src/lib/rag`). -/
def STOP_WORDS : List String :=
  ["a", "an", "and", "are", "as", "at", "be", "by", "for", "from",
   "has", "he", "in", "is", "it", "its", "of", "on", "or", "that",
   "the", "to", "was", "were", "will", "with", "what", "where", "when",
   "who", "why", "how", "can", "could", "would", "should", "do", "does",
   "did", "have", "had", "i", "my", "me", "we", "you", "your", "they",
   "this", "these", "those", "am", "been", "being", "there", "here",
   "just", "about", "also", "some", "any", "all", "more", "other",
   "such", "no", "not", "only", "same", "so", "than", "too", "very"]

/-- The `extractKeywords` function of the retrieval engine: lowercase, replace
punctuation by spaces, split on whitespace, keep tokens of length `> 2`
that are not stop words, deduplicate. -/
def extractKeywords (query : String) : List String :=
  let words :=
    ((wsTokens ((strLower query).data.map normalizeChar) []).filter
        (fun word => 2 < word.length)).filter
      (fun word => !(STOP_WORDS.contains word))
  dedupFirst words

/-- The `categories` enumeration of the knowledge base (`src/data/knowledgeBase`). -/
inductive Category where
  | Services
  | Support
  | Pricing
  | Process
  | Security
  | FAQ
  | Legal
  | Contact
deriving DecidableEq

/-- The `KnowledgeChunk` record of the knowledge base: one indexed document with
pre-extracted keywords. -/
structure KnowledgeChunk where
  id : String
  title : String
  category : Category
  content : String
  keywords : List String
deriving DecidableEq

/-- The `RetrievalResult` record of the retrieval engine.  The score is a `ℚ`
(every score the scorer produces is a multiple of `1/2`, exact in
float64, so the arithmetic agrees with the source). -/
structure RetrievalResult where
  chunk : KnowledgeChunk
  score : ℚ
  matchedKeywords : List String
deriving DecidableEq

/-- The fixed `QUESTION_PATTERNS` mapping, in its source (insertion)
order: category name to indicator-term list. -/
def servicesIndicators : List String :=
  ["services", "offer", "provide", "build", "develop", "create", "website", "web",
   "app", "application", "saas", "mvp", "chatbot", "ai", "api", "ux", "ui"]

def pricingIndicators : List String :=
  ["price", "cost", "pay", "pricing", "money", "billing", "invoice", "rate",
   "hourly", "fixed", "budget", "quote", "estimate", "charge", "fee", "much"]

def supportIndicators : List String :=
  ["help", "support", "contact", "reach", "call", "email", "hours", "available",
   "when", "time", "schedule", "language", "english", "french"]

def processIndicators : List String :=
  ["process", "workflow", "steps", "phases", "start", "begin", "timeline",
   "project", "stages", "consultation", "delivery"]

def securityIndicators : List String :=
  ["security", "privacy", "data", "safe", "secure", "confidential", "access",
   "credentials", "login", "password", "account", "gdpr"]

def legalIndicators : List String :=
  ["refund", "cancel", "contract", "agreement", "legal", "terms", "scope",
   "policy", "cancellation"]

def faqIndicators : List String :=
  ["redesign", "mobile", "app", "api", "integration", "maintain", "maintenance",
   "existing", "third-party", "legacy"]

/-- The `QUESTION_PATTERNS` mapping: the `Object.entries` enumeration order is the
declaration order of the object literal. -/
def QUESTION_PATTERNS : List (String × List String) :=
  [("services", servicesIndicators),
   ("pricing", pricingIndicators),
   ("support", supportIndicators),
   ("process", processIndicators),
   ("security", securityIndicators),
   ("legal", legalIndicators),
   ("faq", faqIndicators)]

/-- The per-category match count of `detectQuestionType`:
`keywords.filter(kw => patterns.some(p => kw.includes(p) || p.includes(kw))).length`. -/
def matchCount (keywords : List String) (patterns : List String) : Nat :=
  (keywords.filter
    (fun kw => patterns.any
      (fun pattern => strIncludes kw pattern || strIncludes pattern kw))).length

/-- The `detectQuestionType` function of the retrieval engine: fold over the fixed
mapping keeping the first category whose count strictly exceeds the best
so far; `null` when the best count stays `0`. -/
def detectQuestionType (keywords : List String) : Option String :=
  let best := QUESTION_PATTERNS.foldl
    (fun acc entry =>
      let mc := matchCount keywords entry.2
      if acc.2 < mc then (some entry.1, mc) else acc)
    ((none : Option String), 0)
  if 0 < best.2 then best.1 else none

/-- The keyword-tier test of `scoreChunk`: the query term bidirectionally
substring-matches some pre-extracted keyword of the chunk (the inner
`for`-loop with `break` of the source). -/
def kwMatchesChunk (chunk : KnowledgeChunk) (queryKw : String) : Bool :=
  chunk.keywords.any
    (fun chunkKw => strIncludes chunkKw queryKw || strIncludes queryKw chunkKw)

/-- The `scoreChunk` function of the retrieval engine.  The three loops of the
source, which mutate `score` and `matchedKeywords`, are the three folds
over the query keywords; the final result deduplicates the matched list
(`[...new Set(matchedKeywords)]`) and adds the density bonus. -/
def scoreChunk (chunk : KnowledgeChunk) (queryKeywords : List String) : RetrievalResult :=
  let afterKw := queryKeywords.foldl
    (fun acc queryKw =>
      if kwMatchesChunk chunk queryKw then (acc.1 + 3, acc.2 ++ [queryKw]) else acc)
    ((0 : ℚ), ([] : List String))
  let titleLower := strLower chunk.title
  let afterTitle := queryKeywords.foldl
    (fun acc queryKw =>
      if strIncludes titleLower queryKw then
        (acc.1 + 2, if queryKw ∈ acc.2 then acc.2 else acc.2 ++ [queryKw])
      else acc)
    afterKw
  let contentLower := strLower chunk.content
  let afterContent := queryKeywords.foldl
    (fun acc queryKw =>
      if strIncludes contentLower queryKw then
        (acc.1 + 1, if queryKw ∈ acc.2 then acc.2 else acc.2 ++ [queryKw])
      else acc)
    afterTitle
  let uniqueMatches := (dedupFirst afterContent.2).length
  { chunk := chunk
    score := afterContent.1 + uniqueMatches * (1 / 2 : ℚ)
    matchedKeywords := dedupFirst afterContent.2 }

/-- The company name injected into the corpus.  The environment lookup
(`import.meta.env.VITE_COMPANY_NAME`) is configuration outside the core;
the embedding fixes its documented fallback value. -/
def COMPANY_NAME : String := "Our Company"

/-- The static `knowledgeBase` corpus, chunk by chunk, in source order. -/
def servicesOverviewChunk : KnowledgeChunk :=
  { id := "services-overview"
    title := "Services Offered"
    category := Category.Services
    content := COMPANY_NAME ++ " provides the following services:\n- Custom website development\n- Web application development\n- SaaS MVP development\n- AI-powered chatbot integration\n- Internal business tools\n- API development and integration\n- Maintenance and technical support\n- UI/UX implementation from design files\n\nWe work primarily with modern web technologies such as JavaScript, React, Node.js, and cloud-based solutions."
    keywords := ["services", "website", "web", "application", "saas", "mvp", "chatbot", "ai", "tools", "api", "maintenance", "support", "ui", "ux", "design", "javascript", "react", "node", "cloud", "development", "build", "create", "offer", "provide", "what", "do", "you"] }

def supportHoursChunk : KnowledgeChunk :=
  { id := "support-hours"
    title := "Customer Support Hours"
    category := Category.Support
    content := "Our customer support team is available:\n- Monday to Friday\n- From 9:00 AM to 6:00 PM (UTC)\n\nSupport requests submitted outside business hours are processed the next business day."
    keywords := ["support", "hours", "time", "available", "availability", "monday", "friday", "business", "contact", "when", "open", "schedule", "utc", "customer", "help", "reach", "working"] }

def pricingBillingChunk : KnowledgeChunk :=
  { id := "pricing-billing"
    title := "Pricing & Billing"
    category := Category.Pricing
    content := COMPANY_NAME ++ " offers flexible pricing models depending on the project:\n- Fixed-price projects for clearly defined scopes\n- Hourly billing for ongoing or evolving projects\n- Monthly maintenance plans for long-term clients\n\nInvoices are issued at the beginning or end of each billing cycle, depending on the agreement. Payments are accepted via bank transfer or online payment platforms."
    keywords := ["pricing", "price", "cost", "billing", "invoice", "payment", "pay", "fixed", "hourly", "monthly", "rate", "charge", "fee", "money", "budget", "quote", "estimate", "bank", "transfer", "how", "much"] }

def projectProcessChunk : KnowledgeChunk :=
  { id := "project-process"
    title := "Project Process & Workflow"
    category := Category.Process
    content := "Our typical project workflow includes:\n1. Initial consultation and requirement gathering\n2. Proposal and timeline approval\n3. Design and development phase\n4. Testing and quality assurance\n5. Deployment and delivery\n6. Post-launch support and maintenance\n\nClients are kept informed throughout the project with regular updates."
    keywords := ["project", "process", "workflow", "steps", "phases", "consultation", "requirements", "proposal", "timeline", "design", "development", "testing", "qa", "quality", "deployment", "delivery", "launch", "updates", "how", "work", "start", "begin", "stages"] }

def technicalSupportChunk : KnowledgeChunk :=
  { id := "technical-support"
    title := "Technical Support & Maintenance"
    category := Category.Support
    content := "We provide ongoing technical support after project delivery. This includes:\n- Bug fixes\n- Security updates\n- Performance improvements\n- Minor feature enhancements\n\nMaintenance plans are available on a monthly basis and can be customized to client needs."
    keywords := ["technical", "support", "maintenance", "bug", "fix", "security", "update", "performance", "enhancement", "monthly", "plan", "ongoing", "after", "delivery", "help", "issue", "problem", "error"] }

def aiChatbotServicesChunk : KnowledgeChunk :=
  { id := "ai-chatbot-services"
    title := "AI Chatbot Services"
    category := Category.Services
    content := COMPANY_NAME ++ " offers AI-powered chatbot solutions that help businesses:\n- Answer customer questions automatically\n- Reduce support workload\n- Provide 24/7 assistance\n- Improve response time and customer satisfaction\n\nOur chatbots can be trained on company-specific documents such as FAQs, policies, and internal documentation."
    keywords := ["ai", "chatbot", "bot", "artificial", "intelligence", "automation", "automatic", "24/7", "questions", "answers", "support", "customer", "train", "training", "documents", "faq", "assistant"] }

def dataPrivacySecurityChunk : KnowledgeChunk :=
  { id := "data-privacy-security"
    title := "Data Privacy & Security"
    category := Category.Security
    content := "We take data privacy seriously.\n- Client data is never shared with third parties\n- All data is processed securely\n- Access to internal systems is restricted\n- AI systems are configured to use only approved data sources\n\nWe comply with general data protection principles and best practices."
    keywords := ["data", "privacy", "security", "secure", "protection", "gdpr", "confidential", "safe", "third", "party", "access", "restricted", "compliance", "information", "private"] }

def accountAccessChunk : KnowledgeChunk :=
  { id := "account-access"
    title := "Account & Access Credentials"
    category := Category.Security
    content := "Clients receive secure access credentials for any systems developed by " ++ COMPANY_NAME ++ ".\n\nIt is the client\x27s responsibility to keep login credentials confidential. " ++ COMPANY_NAME ++ " is not responsible for issues caused by unauthorized access due to credential sharing."
    keywords := ["account", "access", "credentials", "login", "password", "secure", "responsibility", "unauthorized", "sharing", "confidential", "username"] }

def faqRedesignChunk : KnowledgeChunk :=
  { id := "faq-redesign"
    title := "FAQ: Website Redesign"
    category := Category.FAQ
    content := "Q: Do you offer website redesign services?\n\nYes, we redesign existing websites to improve performance, usability, and modern design standards."
    keywords := ["redesign", "website", "existing", "improve", "update", "refresh", "modernize", "revamp", "old", "current", "remake", "offer"] }

def faqApiIntegrationChunk : KnowledgeChunk :=
  { id := "faq-api-integration"
    title := "FAQ: Third-Party API Integration"
    category := Category.FAQ
    content := "Q: Can you integrate third-party APIs?\n\nYes, we regularly integrate payment gateways, CRM systems, and external APIs."
    keywords := ["api", "integration", "integrate", "third-party", "payment", "gateway", "crm", "external", "connect", "stripe", "paypal", "system"] }

def faqMobileAppChunk : KnowledgeChunk :=
  { id := "faq-mobile-app"
    title := "FAQ: Mobile App Development"
    category := Category.FAQ
    content := "Q: Do you provide mobile app development?\n\nOur primary focus is web applications. Mobile apps may be developed using web-based technologies depending on requirements."
    keywords := ["mobile", "app", "application", "ios", "android", "phone", "smartphone", "pwa", "responsive", "native"] }

def faqExistingMaintenanceChunk : KnowledgeChunk :=
  { id := "faq-existing-maintenance"
    title := "FAQ: Existing Project Maintenance"
    category := Category.FAQ
    content := "Q: Can you maintain an existing project?\n\nYes, we offer maintenance services for both projects developed by us and third-party systems."
    keywords := ["maintain", "maintenance", "existing", "project", "third-party", "legacy", "old", "current", "take", "over", "takeover"] }

def contractsLegalChunk : KnowledgeChunk :=
  { id := "contracts-legal"
    title := "Contracts & Legal Agreements"
    category := Category.Legal
    content := "All projects are governed by a service agreement that defines scope, timelines, pricing, and responsibilities.\n\nChanges outside the original scope may require a revised agreement or additional charges."
    keywords := ["contract", "legal", "agreement", "scope", "timeline", "terms", "conditions", "responsibilities", "changes", "revision", "document", "sign", "nda"] }

def refundsCancellationsChunk : KnowledgeChunk :=
  { id := "refunds-cancellations"
    title := "Refunds & Cancellations Policy"
    category := Category.Legal
    content := "Refunds depend on the project stage:\n- Work already completed is non-refundable\n- Remaining unused hours or phases may be refundable\n- Cancellations must be submitted in writing\n\nEach case is reviewed individually."
    keywords := ["refund", "refunds", "cancel", "cancellation", "money", "back", "return", "policy", "completed", "unused", "writing", "stop"] }

def contactInfoChunk : KnowledgeChunk :=
  { id := "contact-info"
    title := "Contact Information"
    category := Category.Contact
    content := "Clients can contact " ++ COMPANY_NAME ++ " via:\n- Email support\n- Contact forms on the website\n- Scheduled video calls\n\nResponse time is typically within 24 business hours."
    keywords := ["contact", "email", "phone", "call", "reach", "message", "form", "video", "meeting", "response", "time", "how", "get", "touch", "talk", "speak"] }

def languageSupportChunk : KnowledgeChunk :=
  { id := "language-support"
    title := "Multi-Language Support"
    category := Category.Support
    content := COMPANY_NAME ++ " supports clients in:\n- English\n- French\n\nDocumentation and communication can be provided in either language."
    keywords := ["language", "english", "french", "multilingual", "translation", "communication", "documentation", "speak", "parler", "français", "languages"] }

/-- The `knowledgeBase` corpus: the sixteen chunks in source order. -/
def knowledgeBase : List KnowledgeChunk :=
  [servicesOverviewChunk, supportHoursChunk, pricingBillingChunk,
   projectProcessChunk, technicalSupportChunk, aiChatbotServicesChunk,
   dataPrivacySecurityChunk, accountAccessChunk, faqRedesignChunk,
   faqApiIntegrationChunk, faqMobileAppChunk, faqExistingMaintenanceChunk,
   contractsLegalChunk, refundsCancellationsChunk, contactInfoChunk,
   languageSupportChunk]

/-- The comparison of `sort((a, b) => b.score - a.score)`: `a` may come
before `b` when the score of `a` is at least that of `b`. -/
def scoreGE (a b : RetrievalResult) : Prop := b.score ≤ a.score

instance : DecidableRel scoreGE :=
  fun a b => inferInstanceAs (Decidable (b.score ≤ a.score))

instance : IsTotal RetrievalResult scoreGE :=
  ⟨fun a b => le_total b.score a.score⟩

instance : IsTrans RetrievalResult scoreGE :=
  ⟨fun _ _ _ h h' => le_trans h' h⟩

/-- The `retrieveRelevantChunks` function of the retrieval engine.  The original
`Array.prototype.sort` is stable by the language standard; the embedding
uses the stable `List.insertionSort`.  The source's default parameters
are `topK = 3`, `minScore = 2`; callers here always pass them explicitly. -/
def retrieveRelevantChunks (query : String) (topK : Nat) (minScore : ℚ) :
    List RetrievalResult :=
  let queryKeywords := extractKeywords query
  if queryKeywords.isEmpty then []
  else
    let scoredChunks := knowledgeBase.map (fun chunk => scoreChunk chunk queryKeywords)
    let relevantChunks :=
      ((scoredChunks.filter (fun result => decide (minScore ≤ result.score))).insertionSort
          scoreGE).take topK
    relevantChunks

/-- The scored-and-filtered corpus for a query, in corpus order: the list
the retriever sorts and truncates.  Used to state the stable tie-break. -/
def scoredFiltered (query : String) (minScore : ℚ) : List RetrievalResult :=
  (knowledgeBase.map (fun chunk => scoreChunk chunk (extractKeywords query))).filter
    (fun result => decide (minScore ≤ result.score))

/-- The `formatContextForPrompt` function of the retrieval engine. -/
def formatContextForPrompt (results : List RetrievalResult) : String :=
  if results.length = 0 then ""
  else
    let contextParts := results.mapIdx
      (fun index result =>
        "[Document " ++ toString (index + 1) ++ ": " ++ result.chunk.title ++ "]\n"
          ++ result.chunk.content)
    String.intercalate "\n\n---\n\n" contextParts

/-- The `getRelevantContext` entry point used in production, `topK = 4`,
`minScore = 2`. -/
def getRelevantContext (query : String) : String × Bool × List RetrievalResult :=
  let chunks := retrieveRelevantChunks query 4 2
  let context := formatContextForPrompt chunks
  (context, decide (0 < chunks.length), chunks)

/-- The `role` enumeration of `ChatMessage` (`AIService.ts`). -/
inductive Role where
  | system
  | user
  | assistant
deriving DecidableEq

/-- The `ChatMessage` record of `AIService.ts`. -/
structure ChatMessage where
  role : Role
  content : String
deriving DecidableEq

/-- The `AIServiceError` type: the typed error of the service, carrying an
internal diagnostic message, a machine status code, and the user-facing
message that is the only text returned to the caller. -/
structure AIServiceError where
  message : String
  statusCode : Nat
  userMessage : String
deriving DecidableEq

/-- The `AICompletionResponse` record of `AIService.ts`. -/
structure AICompletionResponse where
  reply : String
  model : String
deriving DecidableEq

/-- The provider's successful JSON body, reduced to what `complete`
reads from it: `choices[i].message.content`.  `none` stands for a choice
whose optional-chained content (`choices?.[0]?.message?.content`) is
absent. -/
structure CompletionBody where
  choices : List (Option String)
deriving DecidableEq

/-- What the single `fetch` of `complete` did, abstracting the network:
a 2xx response with parsed body, a non-2xx status together with the
upstream error body text, an abort raised by the 30-second timeout
controller, or any other exception with its message. -/
inductive FetchOutcome where
  | success (body : CompletionBody)
  | httpError (status : Nat) (errorText : String)
  | abortError
  | otherError (msg : String)
deriving DecidableEq

/-- The fixed fallback reply substituted for an absent or empty
completion content. -/
def FALLBACK_REPLY : String := "I\x27m sorry, I couldn\x27t generate a response."

/-- The `handleHttpError` method of `AIService.ts`: maps a non-2xx provider status
to the typed error that is thrown.  The upstream body `errorText` is
only logged and appears in no field of the error. -/
def handleHttpError (status : Nat) (errorText : String) : AIServiceError :=
  if status = 429 then
    { message := "Rate limit exceeded"
      statusCode := 429
      userMessage := "Service is busy. Please try again in a moment." }
  else if status = 401 ∨ status = 403 then
    { message := "Authentication failed"
      statusCode := 500
      userMessage := "AI service authentication failed. Please check API key." }
  else if status = 400 then
    { message := "Bad request"
      statusCode := 400
      userMessage := "Invalid request to AI service." }
  else
    { message := "OpenRouter error: " ++ toString status
      statusCode := 500
      userMessage := "Failed to generate response. Please try again." }

/-- The `complete` method of `AIService.ts` as a function of the fetch outcome.
On success the reply is `data.choices?.[0]?.message?.content || fallback`
(`||` substitutes the fallback for an absent and for an empty content);
the returned `model` is always the configured model field.  Every
failure is re-raised as an `AIServiceError` per `handleHttpError`, the
abort branch, or the unexpected-error branch. -/
def complete (model : String) (outcome : FetchOutcome) :
    Except AIServiceError AICompletionResponse :=
  match outcome with
  | FetchOutcome.success body =>
    let reply :=
      match body.choices.head? with
      | some (some content) => if content = "" then FALLBACK_REPLY else content
      | _ => FALLBACK_REPLY
    Except.ok { reply := reply, model := model }
  | FetchOutcome.httpError status errorText =>
    Except.error (handleHttpError status errorText)
  | FetchOutcome.abortError =>
    Except.error
      { message := "Request timeout"
        statusCode := 504
        userMessage := "The AI service took too long to respond. Please try again." }
  | FetchOutcome.otherError msg =>
    Except.error
      { message := msg
        statusCode := 500
        userMessage := "An unexpected error occurred. Please try again." }

/-- The `buildSystemPrompt` method of `AIService.ts`: the two-branch template,
parameterized by the company name and the context block. -/
def buildSystemPrompt (companyName : String) (context : String) (hasContext : Bool) : String :=
  if !hasContext then
    "You are a professional customer support agent for " ++ companyName
      ++ ".\n\nCRITICAL: The user\x27s question does not match any information in your knowledge base.\n\nYou MUST respond with exactly:\n\"I\x27m sorry, I don\x27t have information about that. Please contact our support team for assistance.\"\n\nDo NOT attempt to answer the question. Do NOT make up any information."
  else
    "You are a professional customer support agent for " ++ companyName
      ++ ".\n\nSTRICT RULES YOU MUST FOLLOW:\n1. Answer ONLY using the information provided in the CONTEXT below.\n2. If the CONTEXT doesn\x27t fully answer the question, say what you know and mention you don\x27t have more details.\n3. NEVER invent or assume information not in the CONTEXT.\n4. Be helpful, professional, and concise.\n5. Use a friendly but professional tone.\n6. When answering questions, synthesize the information naturally - don\x27t just quote the sources.\n\nCONTEXT FROM KNOWLEDGE BASE:\n"
      ++ context
      ++ "\n\n---END OF CONTEXT---\n\nAnswer the user\x27s question using ONLY the information above. If you cannot answer from the context, say \"I don\x27t have specific information about that. Please contact our support team for assistance.\""

/-- JavaScript `String.prototype.trim`: drop leading and trailing
whitespace. -/
def strTrim (s : String) : String :=
  String.mk (((s.data.dropWhile Char.isWhitespace).reverse.dropWhile
    Char.isWhitespace).reverse)

/-- The `createConversation` method of `AIService.ts`: `hasContext` is the
JavaScript `!!knowledgeContext && knowledgeContext.trim().length > 0`
(for a string, `!!s` is `s ≠ ""`); the message list is the system
message, then `conversationHistory.slice(-6)` (the last six entries),
then the user message.  Returns `(messages, hasContext)`. -/
def createConversation (companyName userMessage knowledgeContext : String)
    (conversationHistory : List ChatMessage) : List ChatMessage × Bool :=
  let hasContext := !(knowledgeContext == "") && decide (0 < (strTrim knowledgeContext).length)
  let systemPrompt := buildSystemPrompt companyName knowledgeContext hasContext
  ({ role := Role.system, content := systemPrompt }
      :: (conversationHistory.drop (conversationHistory.length - 6)
        ++ [{ role := Role.user, content := userMessage }]),
    hasContext)

/-- The `message` field of the request body, as the edge function sees
it after `req.json()`: absent, a string, or some non-string JSON value.
JavaScript truthiness: an absent field and every non-string value are
rejected by the check that the message is falsy or not a string; among strings
exactly the empty string is falsy. -/
inductive JsonField where
  | absent
  | strVal (s : String)
  | nonString
deriving DecidableEq

/-- The validation test of the serve handler:
message falsy, or message not of string type. -/
def messageInvalid : JsonField → Bool
  | JsonField.strVal s => s == ""
  | _ => true

/-- The request body of the `chat` edge function (`index.ts`), with the
destructuring defaults already applied for the absent optional fields. -/
structure ChatRequest where
  message : JsonField
  conversationHistory : List ChatMessage
  knowledgeContext : String
  companyName : String

/-- What the edge function responds: a success body
`{reply, hasContext, model}` with status 200, or `{error}` with a status. -/
inductive HandlerResponse where
  | ok (reply : String) (hasContext : Bool) (model : String)
  | error (message : String) (status : Nat)
deriving DecidableEq

/-- The `serve` handler of `index.ts`: validate the message, create the
service (`AIService.create` fails when the API key is absent), build the
conversation, run the completion, and map an `AIServiceError` to
`(userMessage, statusCode)`.  The provider interaction inside `complete`
is abstracted by the `outcome` argument. -/
def serveHandler (apiKey : Option String) (model : String) (req : ChatRequest)
    (outcome : FetchOutcome) : HandlerResponse :=
  if messageInvalid req.message then HandlerResponse.error "Message is required" 400
  else
    match apiKey with
    | none =>
      HandlerResponse.error "AI service not configured. Please add OPENROUTER_API_KEY." 500
    | some _ =>
      let userMessage := match req.message with | JsonField.strVal s => s | _ => ""
      let conv := createConversation req.companyName userMessage req.knowledgeContext
        req.conversationHistory
      match complete model outcome with
      | Except.ok resp => HandlerResponse.ok resp.reply conv.2 resp.model
      | Except.error e => HandlerResponse.error e.userMessage e.statusCode

/-- The title-tier test of `scoreChunk`: the query term is a substring
of the lowercased title of the chunk. -/
def titleMatches (chunk : KnowledgeChunk) (kw : String) : Bool :=
  strIncludes (strLower chunk.title) kw

/-- The content-tier test of `scoreChunk`: the query term is a substring
of the lowercased content of the chunk. -/
def contentMatches (chunk : KnowledgeChunk) (kw : String) : Bool :=
  strIncludes (strLower chunk.content) kw

/-- Number of query terms that bidirectionally substring-match some
pre-extracted keyword of the chunk (each term counted at most once).
Stated from the wording of the claim, to be compared with `scoreChunk`. -/
def keywordTierCount (chunk : KnowledgeChunk) (qks : List String) : Nat :=
  qks.countP (kwMatchesChunk chunk)

/-- Number of query terms occurring in the lowercased chunk title. -/
def titleTierCount (chunk : KnowledgeChunk) (qks : List String) : Nat :=
  qks.countP (titleMatches chunk)

/-- Number of query terms occurring in the lowercased chunk content. -/
def contentTierCount (chunk : KnowledgeChunk) (qks : List String) : Nat :=
  qks.countP (contentMatches chunk)

/-- Number of distinct query terms that matched in some tier.  Stated
from the wording of the claim. -/
def matchedTermCount (chunk : KnowledgeChunk) (qks : List String) : Nat :=
  qks.countP
    (fun kw => kwMatchesChunk chunk kw || titleMatches chunk kw || contentMatches chunk kw)

/-- The matched-keyword list `scoreChunk` accumulates, tier by tier, for
a duplicate-free query-term list: keyword-tier matches, then title-tier
matches that are new, then content-tier matches that are new. -/
def matchedList (chunk : KnowledgeChunk) (qks : List String) : List String :=
  qks.filter (kwMatchesChunk chunk)
    ++ qks.filter (fun kw => titleMatches chunk kw && !(kwMatchesChunk chunk kw))
    ++ qks.filter (fun kw => contentMatches chunk kw
        && !(kwMatchesChunk chunk kw) && !(titleMatches chunk kw))

/-! ## Library of facts about the primitives of the embedding -/

theorem mem_dedupFirstAux : ∀ (l seen : List String) (y : String),
    y ∈ dedupFirstAux seen l ↔ (y ∈ l ∧ y ∉ seen) := by
  intro l
  induction l with
  | nil => intro seen y; simp [dedupFirstAux]
  | cons x xs ih =>
    intro seen y
    by_cases hx : x ∈ seen
    · rw [dedupFirstAux, if_pos hx, ih]
      constructor
      · rintro ⟨hy, hys⟩
        exact ⟨List.mem_cons_of_mem _ hy, hys⟩
      · rintro ⟨hy, hys⟩
        rcases List.mem_cons.mp hy with rfl | hy
        · exact absurd hx hys
        · exact ⟨hy, hys⟩
    · rw [dedupFirstAux, if_neg hx]
      constructor
      · intro hy
        rcases List.mem_cons.mp hy with rfl | hy
        · exact ⟨List.mem_cons_self _ _, hx⟩
        · have h := (ih (x :: seen) y).mp hy
          exact ⟨List.mem_cons_of_mem _ h.1,
            fun hys => h.2 (List.mem_cons_of_mem _ hys)⟩
      · rintro ⟨hy, hys⟩
        rcases List.mem_cons.mp hy with rfl | hy
        · exact List.mem_cons_self _ _
        · by_cases hyx : y = x
          · subst hyx; exact List.mem_cons_self _ _
          · refine List.mem_cons_of_mem _ ((ih (x :: seen) y).mpr ⟨hy, ?_⟩)
            intro hmem
            rcases List.mem_cons.mp hmem with h | h
            · exact hyx h
            · exact hys h

theorem dedupFirstAux_nodup : ∀ (l seen : List String), (dedupFirstAux seen l).Nodup := by
  intro l
  induction l with
  | nil => intro seen; simp [dedupFirstAux]
  | cons x xs ih =>
    intro seen
    by_cases hx : x ∈ seen
    · rw [dedupFirstAux, if_pos hx]; exact ih seen
    · rw [dedupFirstAux, if_neg hx]
      refine List.nodup_cons.mpr ⟨?_, ih (x :: seen)⟩
      intro hmem
      exact ((mem_dedupFirstAux xs (x :: seen) x).mp hmem).2 (List.mem_cons_self x seen)

theorem dedupFirstAux_eq_self : ∀ (l seen : List String), l.Nodup →
    (∀ x ∈ l, x ∉ seen) → dedupFirstAux seen l = l := by
  intro l
  induction l with
  | nil => intro seen _ _; rfl
  | cons x xs ih =>
    intro seen hnd hni
    have hx : x ∉ seen := hni x (List.mem_cons_self _ _)
    rw [dedupFirstAux, if_neg hx]
    congr 1
    refine ih (x :: seen) (List.nodup_cons.mp hnd).2 ?_
    intro y hy hmem
    rcases List.mem_cons.mp hmem with rfl | hys
    · exact (List.nodup_cons.mp hnd).1 hy
    · exact hni y (List.mem_cons_of_mem _ hy) hys

theorem mem_dedupFirst (l : List String) (y : String) : y ∈ dedupFirst l ↔ y ∈ l := by
  rw [dedupFirst, mem_dedupFirstAux]
  simp

theorem dedupFirst_nodup (l : List String) : (dedupFirst l).Nodup :=
  dedupFirstAux_nodup l []

theorem dedupFirst_eq_self {l : List String} (h : l.Nodup) : dedupFirst l = l :=
  dedupFirstAux_eq_self l [] h (by simp)

theorem string_eq_empty_of_length {s : String} (h : s.length = 0) : s = "" := by
  cases s with
  | mk data =>
    have : data = [] := List.eq_nil_of_length_eq_zero h
    rw [this]

/-- Lowercasing never produces an ASCII capital letter. -/
theorem toLower_isUpper_false (c : Char) : (Char.toLower c).isUpper = false := by
  unfold Char.toLower
  by_cases h : c.toNat ≥ 65 ∧ c.toNat ≤ 90
  · rw [if_pos h]
    obtain ⟨h1, h2⟩ := h
    set n := c.toNat with hn
    interval_cases n <;> decide
  · rw [if_neg h]
    unfold Char.isUpper
    by_cases h1 : (65 : UInt32) ≤ c.val
    · by_cases h2 : c.val ≤ (90 : UInt32)
      · exact absurd ⟨UInt32.le_toNat_of_le (by norm_num [UInt32.size]) h1,
          UInt32.toNat_le_of_le (by norm_num [UInt32.size]) h2⟩ h
      · simp [h2]
    · simp [h1]

/-- Every character of every token the whitespace split produces comes
from the input character list and is not whitespace (provided the
characters already accumulated are not whitespace). -/
theorem wsTokens_mem_chars : ∀ (cs acc : List Char),
    (∀ c ∈ acc, c.isWhitespace = false) →
    ∀ t ∈ wsTokens cs acc, ∀ c ∈ t.data,
      (c ∈ cs ∧ c.isWhitespace = false) ∨ c ∈ acc := by
  intro cs
  induction cs with
  | nil =>
    intro acc _ t ht c hc
    rw [wsTokens] at ht
    rcases List.mem_singleton.mp ht with rfl
    right
    exact List.mem_reverse.mp hc
  | cons x xs ih =>
    intro acc hacc t ht c hc
    by_cases hx : x.isWhitespace
    · rw [wsTokens, if_pos hx] at ht
      rcases List.mem_cons.mp ht with rfl | ht
      · right; exact List.mem_reverse.mp hc
      · have h := ih [] (by simp) t ht c hc
        rcases h with ⟨h1, h2⟩ | h
        · exact Or.inl ⟨List.mem_cons_of_mem _ h1, h2⟩
        · exact absurd h (List.not_mem_nil c)
    · rw [wsTokens, if_neg hx] at ht
      have hacc' : ∀ c ∈ x :: acc, c.isWhitespace = false := by
        intro c' hc'
        rcases List.mem_cons.mp hc' with rfl | hc'
        · exact Bool.eq_false_iff.mpr hx
        · exact hacc c' hc'
      have h := ih (x :: acc) hacc' t ht c hc
      rcases h with ⟨h1, h2⟩ | h
      · exact Or.inl ⟨List.mem_cons_of_mem _ h1, h2⟩
      · rcases List.mem_cons.mp h with rfl | h
        · exact Or.inl ⟨List.mem_cons_self _ _, Bool.eq_false_iff.mpr hx⟩
        · exact Or.inr h

/-- A non-whitespace character of the normalized query is a word
character and is not an ASCII capital. -/
theorem normalized_char_props (query : String) (c : Char)
    (hmem : c ∈ (strLower query).data.map normalizeChar)
    (hws : c.isWhitespace = false) :
    isWordChar c = true ∧ c.isUpper = false := by
  obtain ⟨c₁, hc₁, rfl⟩ := List.mem_map.mp hmem
  have hc₁' : c₁ ∈ query.data.map Char.toLower := hc₁
  obtain ⟨c₀, _, rfl⟩ := List.mem_map.mp hc₁'
  unfold normalizeChar at hws ⊢
  by_cases hcond : isWordChar (Char.toLower c₀) || (Char.toLower c₀).isWhitespace
  · rw [if_pos hcond] at hws ⊢
    rcases Bool.or_eq_true_iff.mp hcond with hw | hw
    · exact ⟨hw, toLower_isUpper_false c₀⟩
    · rw [hw] at hws; exact absurd hws (by simp)
  · rw [if_neg hcond] at hws
    exact absurd hws (by decide)

/-! ## C3: the tokenizer -/

/-- C3, counterexample: the claim says every extracted token is an
alphanumeric string, but JavaScript `\w` keeps the underscore, so the
query "foo_bar" yields the token "foo_bar", which contains a
non-alphanumeric character. -/
theorem C3_counterexample :
    ¬ (∀ t ∈ extractKeywords "foo_bar", ∀ c ∈ t.data, c.isAlphanum = true) := by
  decide

/-- C3 (amended): `extractKeywords` lowercases, replaces non-word
non-whitespace characters by spaces, splits on whitespace, drops tokens
of length at most 2 and stop words, and deduplicates; consequently every
returned token is a non-empty string of word characters (letters, digits
or underscore — not necessarily alphanumeric) without capital letters,
of length greater than 2, not a stop word; the result has no duplicates;
and an input whose tokens are all short or stop words (in particular the
empty input) yields the empty list. -/
theorem C3_amended (query : String) :
    (∀ t ∈ extractKeywords query,
        t ≠ "" ∧ 2 < t.length ∧ t ∉ STOP_WORDS
          ∧ ∀ c ∈ t.data, isWordChar c = true ∧ c.isUpper = false)
  ∧ (extractKeywords query).Nodup
  ∧ ((∀ w ∈ wsTokens ((strLower query).data.map normalizeChar) [],
        w.length ≤ 2 ∨ w ∈ STOP_WORDS) →
      extractKeywords query = []) := by
  refine ⟨?_, dedupFirst_nodup _, ?_⟩
  · intro t ht
    simp only [extractKeywords] at ht
    rw [mem_dedupFirst, List.mem_filter] at ht
    obtain ⟨ht1, hstop⟩ := ht
    rw [List.mem_filter] at ht1
    obtain ⟨htok, hlen⟩ := ht1
    have hlen' : 2 < t.length := of_decide_eq_true hlen
    have hstop' : t ∉ STOP_WORDS := by simpa using hstop
    refine ⟨?_, hlen', hstop', ?_⟩
    · intro he
      rw [he] at hlen'
      exact absurd hlen' (by decide)
    · intro c hc
      have h := wsTokens_mem_chars _ [] (by simp) t htok c hc
      rcases h with ⟨h1, h2⟩ | h
      · exact normalized_char_props query c h1 h2
      · exact absurd h (List.not_mem_nil c)
  · intro hall
    have h1 : ((wsTokens ((strLower query).data.map normalizeChar) []).filter
          (fun word => 2 < word.length)).filter
          (fun word => !(STOP_WORDS.contains word)) = [] := by
      rw [List.filter_eq_nil_iff]
      intro w hw
      rw [List.mem_filter] at hw
      rcases hall w hw.1 with hle | hstop
      · have := of_decide_eq_true hw.2
        omega
      · simp [hstop]
    simp only [extractKeywords, h1]
    rfl

/-- C3, witness: concrete queries exercising the amended claim. -/
theorem C3_witness :
    ("cost" ∈ extractKeywords "What does it cost?"
      ∧ ("cost" ≠ "" ∧ 2 < "cost".length ∧ "cost" ∉ STOP_WORDS
          ∧ ∀ c ∈ "cost".data, isWordChar c = true ∧ c.isUpper = false))
  ∧ (extractKeywords "What does it cost?").Nodup
  ∧ extractKeywords "the is" = [] :=
  ⟨⟨by decide, (C3_amended "What does it cost?").1 "cost" (by decide)⟩,
   (C3_amended "What does it cost?").2.1,
   (C3_amended "the is").2.2 (by decide)⟩

/-! ## C2: the chunk scorer -/

/-- The keyword-tier loop of `scoreChunk`: each matching term adds `w`
to the score and is appended to the matched list. -/
theorem foldl_scoreTier1 (p : String → Bool) (w : ℚ) :
    ∀ (l : List String) (s0 : ℚ) (m0 : List String),
      l.foldl (fun acc kw => if p kw then (acc.1 + w, acc.2 ++ [kw]) else acc) (s0, m0)
        = (s0 + w * l.countP p, m0 ++ l.filter p) := by
  intro l
  induction l with
  | nil => intro s0 m0; simp
  | cons x xs ih =>
    intro s0 m0
    by_cases hp : p x
    · simp only [List.foldl_cons, if_pos hp, ih, List.countP_cons_of_pos _ _ hp,
        List.filter_cons_of_pos hp]
      simp only [Prod.mk.injEq]
      constructor
      · push_cast
        ring
      · simp
    · simp only [List.foldl_cons, if_neg hp, ih, List.countP_cons_of_neg _ _ hp,
        List.filter_cons_of_neg hp]

/-- The title- and content-tier loops of `scoreChunk`: each matching
term adds `w`; it is appended to the matched list only when new.  For a
duplicate-free term list the appended terms are exactly the matches not
already in the initial matched list. -/
theorem foldl_scoreTier2 (p : String → Bool) (w : ℚ) :
    ∀ (l : List String), l.Nodup → ∀ (s0 : ℚ) (m0 : List String),
      l.foldl (fun acc kw =>
          if p kw then (acc.1 + w, if kw ∈ acc.2 then acc.2 else acc.2 ++ [kw]) else acc)
        (s0, m0)
        = (s0 + w * l.countP p,
            m0 ++ l.filter (fun kw => p kw && !(decide (kw ∈ m0)))) := by
  intro l
  induction l with
  | nil => intro _ s0 m0; simp
  | cons x xs ih =>
    intro hnd s0 m0
    obtain ⟨hx, hxs⟩ := List.nodup_cons.mp hnd
    by_cases hp : p x
    · by_cases hm : x ∈ m0
      · simp only [List.foldl_cons, if_pos hp, if_pos hm, ih hxs]
        simp only [Prod.mk.injEq]
        constructor
        · rw [List.countP_cons_of_pos _ _ hp]
          push_cast
          ring
        · simp [List.filter_cons, hp, hm]
      · simp only [List.foldl_cons, if_pos hp, if_neg hm, ih hxs]
        have hcongr : xs.filter (fun kw => p kw && !(decide (kw ∈ m0 ++ [x])))
            = xs.filter (fun kw => p kw && !(decide (kw ∈ m0))) := by
          apply List.filter_congr
          intro kw hkw
          have hne : kw ≠ x := fun hkx => hx (hkx ▸ hkw)
          simp [List.mem_append, hne]
        simp only [hcongr, Prod.mk.injEq]
        constructor
        · rw [List.countP_cons_of_pos _ _ hp]
          push_cast
          ring
        · simp [List.filter_cons, hp, hm, List.append_assoc]
    · simp only [List.foldl_cons, if_neg hp, ih hxs, Prod.mk.injEq]
      constructor
      · rw [List.countP_cons_of_neg _ _ hp]
      · simp [List.filter_cons, hp]

/-- For a duplicate-free term list, the matched list built by the three
tiers of `scoreChunk` has no duplicates. -/
theorem matchedList_nodup (chunk : KnowledgeChunk) {qks : List String} (h : qks.Nodup) :
    (matchedList chunk qks).Nodup := by
  unfold matchedList
  refine List.Nodup.append (List.Nodup.append (h.filter _) (h.filter _) ?_) (h.filter _) ?_
  · intro a ha hb
    rw [List.mem_filter] at ha hb
    have h1 := ha.2
    have h2 := hb.2
    simp only [Bool.and_eq_true, Bool.not_eq_true'] at h2
    rw [h1] at h2
    exact absurd h2.2 (by simp)
  · intro a ha hb
    rw [List.mem_filter] at hb
    have h3 := hb.2
    simp only [Bool.and_eq_true, Bool.not_eq_true'] at h3
    rcases List.mem_append.mp ha with ha' | ha'
    · rw [List.mem_filter] at ha'
      rw [ha'.2] at h3
      exact absurd h3.1.2 (by simp)
    · rw [List.mem_filter] at ha'
      have h2 := ha'.2
      simp only [Bool.and_eq_true, Bool.not_eq_true'] at h2
      rw [h2.1] at h3
      exact absurd h3.2 (by simp)

/-- The length of the matched list equals the number of distinct terms
matching in some tier. -/
theorem matchedList_length (chunk : KnowledgeChunk) (qks : List String) :
    (matchedList chunk qks).length = matchedTermCount chunk qks := by
  induction qks with
  | nil => rfl
  | cons x xs ih =>
    by_cases h1 : kwMatchesChunk chunk x <;> by_cases h2 : titleMatches chunk x <;>
      by_cases h3 : contentMatches chunk x <;>
      simp [matchedList, matchedTermCount, List.filter_cons, List.countP_cons,
        List.length_append, h1, h2, h3] at ih ⊢ <;>
      omega

/-- The matched list and tier counts characterize `scoreChunk` exactly
(for a duplicate-free term list). -/
theorem scoreChunk_spec (chunk : KnowledgeChunk) (qks : List String) (h : qks.Nodup) :
    scoreChunk chunk qks =
      { chunk := chunk
        score := 3 * (keywordTierCount chunk qks : ℚ) + 2 * (titleTierCount chunk qks : ℚ)
            + (contentTierCount chunk qks : ℚ)
            + ((matchedList chunk qks).length : ℚ) * (1 / 2 : ℚ)
        matchedKeywords := matchedList chunk qks } := by
  simp only [scoreChunk]
  rw [foldl_scoreTier1 (kwMatchesChunk chunk) 3 qks 0 []]
  simp only [List.nil_append]
  rw [foldl_scoreTier2 (fun kw => strIncludes (strLower chunk.title) kw) 2 qks h]
  have e2 : qks.filter
        (fun kw => strIncludes (strLower chunk.title) kw
          && !(decide (kw ∈ qks.filter (kwMatchesChunk chunk))))
      = qks.filter (fun kw => titleMatches chunk kw && !(kwMatchesChunk chunk kw)) := by
    apply List.filter_congr
    intro kw hkw
    simp [titleMatches, List.mem_filter, hkw]
  rw [e2]
  rw [foldl_scoreTier2 (fun kw => strIncludes (strLower chunk.content) kw) 1 qks h]
  have e3 : qks.filter
        (fun kw => strIncludes (strLower chunk.content) kw
          && !(decide (kw ∈ qks.filter (kwMatchesChunk chunk)
            ++ qks.filter (fun kw => titleMatches chunk kw && !(kwMatchesChunk chunk kw)))))
      = qks.filter (fun kw => contentMatches chunk kw
          && !(kwMatchesChunk chunk kw) && !(titleMatches chunk kw)) := by
    apply List.filter_congr
    intro kw hkw
    by_cases hk1 : kwMatchesChunk chunk kw <;> by_cases hk2 : titleMatches chunk kw <;>
      simp [contentMatches, titleMatches, List.mem_append, List.mem_filter, hkw, hk1, hk2]
  rw [e3]
  rw [show qks.filter (kwMatchesChunk chunk)
        ++ qks.filter (fun kw => titleMatches chunk kw && !(kwMatchesChunk chunk kw))
        ++ qks.filter (fun kw => contentMatches chunk kw
          && !(kwMatchesChunk chunk kw) && !(titleMatches chunk kw))
      = matchedList chunk qks from rfl]
  rw [dedupFirst_eq_self (matchedList_nodup chunk h)]
  have et : (fun kw => strIncludes (strLower chunk.title) kw) = titleMatches chunk := rfl
  have ec : (fun kw => strIncludes (strLower chunk.content) kw) = contentMatches chunk := rfl
  rw [et, ec]
  simp only [keywordTierCount, titleTierCount, contentTierCount]
  congr 1
  ring

/-- C2: for every chunk and duplicate-free term set, the score is
3 per keyword-tier term + 2 per title-tier term + 1 per content-tier
term + 0.5 per distinct matched term, and the matched-keyword set is
exactly the set of terms matching in some tier, without duplicates. -/
theorem C2_scoreChunk (chunk : KnowledgeChunk) (qks : List String) (h : qks.Nodup) :
    (scoreChunk chunk qks).score
        = 3 * (keywordTierCount chunk qks : ℚ) + 2 * (titleTierCount chunk qks : ℚ)
            + (contentTierCount chunk qks : ℚ)
            + (matchedTermCount chunk qks : ℚ) * (1 / 2 : ℚ)
      ∧ (∀ t, t ∈ (scoreChunk chunk qks).matchedKeywords
          ↔ t ∈ qks ∧ (kwMatchesChunk chunk t = true ∨ titleMatches chunk t = true
              ∨ contentMatches chunk t = true))
      ∧ (scoreChunk chunk qks).matchedKeywords.Nodup := by
  rw [scoreChunk_spec chunk qks h]
  refine ⟨?_, ?_, matchedList_nodup chunk h⟩
  · rw [matchedList_length]
  · intro t
    unfold matchedList
    simp only [List.mem_append, List.mem_filter]
    by_cases h1 : kwMatchesChunk chunk t <;> by_cases h2 : titleMatches chunk t <;>
      by_cases h3 : contentMatches chunk t <;> simp [h1, h2, h3]

/-- C2, witness: the score formula and matched set evaluated on the
pricing chunk against the terms of the sample query. -/
theorem C2_witness :
    (extractKeywords "how much does a website cost").Nodup
  ∧ (scoreChunk pricingBillingChunk (extractKeywords "how much does a website cost")).score
        = 3 * (keywordTierCount pricingBillingChunk (extractKeywords "how much does a website cost") : ℚ)
            + 2 * (titleTierCount pricingBillingChunk (extractKeywords "how much does a website cost") : ℚ)
            + (contentTierCount pricingBillingChunk (extractKeywords "how much does a website cost") : ℚ)
            + (matchedTermCount pricingBillingChunk (extractKeywords "how much does a website cost") : ℚ)
              * (1 / 2 : ℚ)
  ∧ (scoreChunk pricingBillingChunk (extractKeywords "how much does a website cost")).matchedKeywords.Nodup :=
  ⟨by decide,
   (C2_scoreChunk pricingBillingChunk (extractKeywords "how much does a website cost")
     (by decide)).1,
   (C2_scoreChunk pricingBillingChunk (extractKeywords "how much does a website cost")
     (by decide)).2.2⟩

/-! ## C1: the retriever -/

/-- The retriever, written with the scored-and-filtered list
made explicit (definitional). -/
theorem retrieve_eq (query : String) (topK : Nat) (minScore : ℚ) :
    retrieveRelevantChunks query topK minScore =
      if (extractKeywords query).isEmpty then []
      else ((scoredFiltered query minScore).insertionSort scoreGE).take topK := rfl

/-- The corpus has pairwise distinct chunks (their ids differ). -/
theorem knowledgeBase_nodup : knowledgeBase.Nodup := by
  have h : (knowledgeBase.map KnowledgeChunk.id).Nodup := by decide
  exact h.of_map

theorem scoredFiltered_nodup (query : String) (minScore : ℚ) :
    (scoredFiltered query minScore).Nodup := by
  apply List.Nodup.filter
  apply List.Nodup.map_on ?_ knowledgeBase_nodup
  intro x _ y _ hf
  have hc := congrArg RetrievalResult.chunk hf
  simpa [scoreChunk] using hc

/-- Truncation keeps the relative order of a pair of a duplicate-free
list when the later element survives. -/
theorem pair_sublist_take {α : Type} {a b : α} :
    ∀ (l : List α) (k : Nat), l.Nodup → List.Sublist [a, b] l → b ∈ l.take k →
      List.Sublist [a, b] (l.take k) := by
  intro l
  induction l with
  | nil =>
    intro k _ hs _
    simp at hs
  | cons x xs ih =>
    intro k hnd hs hb
    cases k with
    | zero => simp at hb
    | succ k =>
      obtain ⟨hx, hxs⟩ := List.nodup_cons.mp hnd
      rw [List.take_succ_cons] at hb ⊢
      cases hs with
      | cons _ h =>
        have hbxs : b ∈ xs := h.subset (by simp)
        have hbne : b ≠ x := fun he => hx (he ▸ hbxs)
        have hb' : b ∈ xs.take k := by
          rcases List.mem_cons.mp hb with he | hbk
          · exact absurd he hbne
          · exact hbk
        exact (ih k hxs h hb').cons x
      | cons₂ _ h =>
        have hbxs : b ∈ xs := h.subset (by simp)
        have hbne : b ≠ a := fun he => hx (he ▸ hbxs)
        have hb' : b ∈ xs.take k := by
          rcases List.mem_cons.mp hb with he | hbk
          · exact absurd he hbne
          · exact hbk
        exact (List.singleton_sublist.mpr hb').cons₂ a

/-- C1: the retriever returns at most `topK` results; every returned
result scores at least `minScore`; results are sorted non-increasingly
by score; equal-score (indeed all) pairs of the scored corpus keep their
corpus order when both are returned (the sort is stable and the
truncation preserves order); and an empty extracted term set
short-circuits to the empty result. -/
theorem C1_retrieve (query : String) (topK : Nat) (minScore : ℚ) :
    (retrieveRelevantChunks query topK minScore).length ≤ topK
  ∧ (∀ r ∈ retrieveRelevantChunks query topK minScore, minScore ≤ r.score)
  ∧ (retrieveRelevantChunks query topK minScore).Sorted scoreGE
  ∧ (extractKeywords query = [] → retrieveRelevantChunks query topK minScore = [])
  ∧ (∀ a b, List.Sublist [a, b] (scoredFiltered query minScore) → b.score ≤ a.score →
      b ∈ retrieveRelevantChunks query topK minScore →
      List.Sublist [a, b] (retrieveRelevantChunks query topK minScore)) := by
  rw [retrieve_eq]
  by_cases hemp : (extractKeywords query).isEmpty
  · rw [if_pos hemp]
    refine ⟨by simp, by simp, List.sorted_nil, fun _ => rfl, ?_⟩
    intro a b _ _ hb
    simp at hb
  · rw [if_neg hemp]
    refine ⟨?_, ?_, ?_, ?_, ?_⟩
    · rw [List.length_take]
      exact min_le_left _ _
    · intro r hr
      have hr' : r ∈ (scoredFiltered query minScore).insertionSort scoreGE :=
        List.take_subset _ _ hr
      rw [List.mem_insertionSort] at hr'
      exact of_decide_eq_true (List.mem_filter.mp hr').2
    · exact List.Pairwise.sublist (List.take_sublist topK _)
        (List.sorted_insertionSort scoreGE _)
    · intro hq
      exact absurd (by rw [hq]; rfl) hemp
    · intro a b hab hle hb
      have hfull : List.Sublist [a, b] ((scoredFiltered query minScore).insertionSort scoreGE) :=
        List.pair_sublist_insertionSort hle hab
      have hnd : ((scoredFiltered query minScore).insertionSort scoreGE).Nodup :=
        ((List.perm_insertionSort scoreGE _).nodup_iff).mpr
          (scoredFiltered_nodup query minScore)
      exact pair_sublist_take _ topK hnd hfull hb

set_option maxRecDepth 100000 in
/-- C1, witness: the sample query instantiates every part, including
stability on the pricing/redesign pair (scores 7 and 13/2, both kept). -/
theorem C1_witness :
    (retrieveRelevantChunks "how much does a website cost" 4 2).length ≤ 4
  ∧ 2 ≤ (scoreChunk faqRedesignChunk (extractKeywords "how much does a website cost")).score
  ∧ (extractKeywords "the" = [] ∧ retrieveRelevantChunks "the" 4 2 = [])
  ∧ List.Sublist
      [scoreChunk pricingBillingChunk (extractKeywords "how much does a website cost"),
        scoreChunk faqRedesignChunk (extractKeywords "how much does a website cost")]
      (retrieveRelevantChunks "how much does a website cost" 4 2) :=
  ⟨(C1_retrieve "how much does a website cost" 4 2).1,
   (C1_retrieve "how much does a website cost" 4 2).2.1 _ (by with_unfolding_all decide),
   ⟨by decide, (C1_retrieve "the" 4 2).2.2.2.1 (by decide)⟩,
   (C1_retrieve "how much does a website cost" 4 2).2.2.2.2 _ _
     (by with_unfolding_all decide) (by with_unfolding_all decide)
     (by with_unfolding_all decide)⟩

/-! ## C9: the sample-query scenario -/

set_option maxRecDepth 100000 in
/-- C9: for the query "how much does a website cost" with the production
parameters `topK = 4`, `minScore = 2`, the pricing document is ranked
first and every returned score (in particular the first) is at least 2. -/
theorem C9_scenario :
    ((retrieveRelevantChunks "how much does a website cost" 4 2).map
        (fun r => r.chunk.id)).head? = some "pricing-billing"
  ∧ (retrieveRelevantChunks "how much does a website cost" 4 2).map
        (fun r => decide (2 ≤ r.score)) = [true, true, true] :=
  ⟨by with_unfolding_all decide, by with_unfolding_all decide⟩

/-! ## C6: the context formatter and the hasContext flag -/

/-- The hasContext flag of the conversation builder is false exactly
when the context string trims to the empty string. -/
theorem hasContext_false_iff (companyName userMessage s : String) (hist : List ChatMessage) :
    (createConversation companyName userMessage s hist).2 = false ↔ strTrim s = "" := by
  show (!(s == "") && decide (0 < (strTrim s).length)) = false ↔ strTrim s = ""
  constructor
  · intro h
    rcases Bool.and_eq_false_iff.mp h with h | h
    · have hs : s = "" := by simpa using h
      rw [hs]
      rfl
    · have hlen : ¬ 0 < (strTrim s).length := by simpa using h
      exact string_eq_empty_of_length (by omega)
  · intro h
    rw [h]
    simp

/-- C6: formatting the empty result sequence gives the empty string; a
non-empty sequence renders each result as an indexed, titled block
followed by its content, joined by the blank-line/separator pattern in
input order; and the hasContext flag handed to the caller is false iff
the formatted context trims to empty. -/
theorem C6_format (companyName userMessage : String) (hist : List ChatMessage) :
    formatContextForPrompt [] = ""
  ∧ (∀ results : List RetrievalResult, results ≠ [] →
      formatContextForPrompt results
        = String.intercalate "\n\n---\n\n"
            (results.mapIdx (fun index result =>
              "[Document " ++ toString (index + 1) ++ ": " ++ result.chunk.title ++ "]\n"
                ++ result.chunk.content)))
  ∧ (∀ results : List RetrievalResult,
      (createConversation companyName userMessage (formatContextForPrompt results) hist).2
          = false
        ↔ strTrim (formatContextForPrompt results) = "") := by
  refine ⟨rfl, ?_, ?_⟩
  · intro results hne
    have hlen : ¬ results.length = 0 := by
      simpa [List.length_eq_zero] using hne
    simp only [formatContextForPrompt, if_neg hlen]
  · intro results
    exact hasContext_false_iff companyName userMessage (formatContextForPrompt results) hist

/-- C6, witness: a singleton result list and its rendered block. -/
theorem C6_witness :
    formatContextForPrompt [{ chunk := faqRedesignChunk, score := 3, matchedKeywords := [] }]
      = String.intercalate "\n\n---\n\n"
          ([({ chunk := faqRedesignChunk, score := 3,
               matchedKeywords := [] } : RetrievalResult)].mapIdx (fun index result =>
            "[Document " ++ toString (index + 1) ++ ": " ++ result.chunk.title ++ "]\n"
              ++ result.chunk.content))
  ∧ ((createConversation "c" "u"
        (formatContextForPrompt
          [{ chunk := faqRedesignChunk, score := 3, matchedKeywords := [] }]) []).2 = false
      ↔ strTrim (formatContextForPrompt
          [{ chunk := faqRedesignChunk, score := 3, matchedKeywords := [] }]) = "") :=
  ⟨(C6_format "c" "u" []).2.1 _ (by simp),
   (C6_format "c" "u" []).2.2 _⟩

/-! ## C4: the conversation builder -/

/-- C4, counterexample: the claim quantifies over every conversation
history, but a history that itself carries a system-role entry yields
two system messages in the output, not exactly one. -/
theorem C4_counterexample :
    ¬ ((((createConversation "c" "u" "" [{ role := Role.system, content := "x" }]).1).filter
          (fun m => decide (m.role = Role.system))).length = 1) := by
  decide

/-- C4 (amended): for histories whose entries are user or assistant
messages (as the request schema declares), the built sequence is one
system message first, then the last six history entries in order, then
the user message verbatim; it contains exactly one system-role message,
and it sits at index 0. -/
theorem C4_amended (companyName userMessage knowledgeContext : String)
    (history : List ChatMessage) (h : ∀ m ∈ history, m.role ≠ Role.system) :
    (∃ systemContent,
        (createConversation companyName userMessage knowledgeContext history).1
          = { role := Role.system, content := systemContent }
              :: (history.drop (history.length - 6)
                ++ [{ role := Role.user, content := userMessage }]))
  ∧ ((createConversation companyName userMessage knowledgeContext history).1.filter
        (fun m => decide (m.role = Role.system))).length = 1
  ∧ ((createConversation companyName userMessage knowledgeContext history).1.head?).map
        ChatMessage.role = some Role.system := by
  refine ⟨⟨buildSystemPrompt companyName knowledgeContext
      (!(knowledgeContext == "") && decide (0 < (strTrim knowledgeContext).length)), rfl⟩,
    ?_, rfl⟩
  have key : (createConversation companyName userMessage knowledgeContext history).1
      = { role := Role.system,
          content := buildSystemPrompt companyName knowledgeContext
            (!(knowledgeContext == "") && decide (0 < (strTrim knowledgeContext).length)) }
        :: (history.drop (history.length - 6)
          ++ [{ role := Role.user, content := userMessage }]) := rfl
  rw [key, List.filter_cons_of_pos (by simp), List.filter_append]
  have h1 : (history.drop (history.length - 6)).filter
      (fun m => decide (m.role = Role.system)) = [] := by
    rw [List.filter_eq_nil_iff]
    intro m hm
    simp only [decide_eq_true_eq]
    exact h m (List.drop_subset _ _ hm)
  rw [h1]
  simp

/-- C4, witness: a short user/assistant history, with the builder output
spelled out. -/
theorem C4_witness :
    (∃ systemContent,
        (createConversation "c" "u" "ctx" [{ role := Role.user, content := "h1" }]).1
          = { role := Role.system, content := systemContent }
              :: ([{ role := Role.user, content := "h1" }].drop
                  (([{ role := Role.user, content := "h1" }] : List ChatMessage).length - 6)
                ++ [{ role := Role.user, content := "u" }]))
  ∧ ((createConversation "c" "u" "ctx" [{ role := Role.user, content := "h1" }]).1.filter
        (fun m => decide (m.role = Role.system))).length = 1
  ∧ ((createConversation "c" "u" "ctx" [{ role := Role.user, content := "h1" }]).1.head?).map
        ChatMessage.role = some Role.system :=
  C4_amended "c" "u" "ctx" [{ role := Role.user, content := "h1" }] (by decide)

/-! ## C5: the completion-client error taxonomy -/

/-- C5: every failure of the completion call maps to its typed error —
abort gives 504 with the "took too long" message; provider 429 gives
429 with the "busy" message; 401/403 give 500; 400 gives 400; every
other non-2xx status gives 500; and the error produced for an upstream
status never depends on the upstream body text. -/
theorem C5_errors (model : String) :
    complete model FetchOutcome.abortError
        = Except.error
            { message := "Request timeout"
              statusCode := 504
              userMessage := "The AI service took too long to respond. Please try again." }
  ∧ strIncludes "The AI service took too long to respond. Please try again."
      "took too long" = true
  ∧ (∀ t, complete model (FetchOutcome.httpError 429 t)
        = Except.error
            { message := "Rate limit exceeded"
              statusCode := 429
              userMessage := "Service is busy. Please try again in a moment." })
  ∧ strIncludes "Service is busy. Please try again in a moment." "busy" = true
  ∧ (∀ t, complete model (FetchOutcome.httpError 401 t)
        = Except.error
            { message := "Authentication failed"
              statusCode := 500
              userMessage := "AI service authentication failed. Please check API key." })
  ∧ (∀ t, complete model (FetchOutcome.httpError 403 t)
        = Except.error
            { message := "Authentication failed"
              statusCode := 500
              userMessage := "AI service authentication failed. Please check API key." })
  ∧ (∀ t, complete model (FetchOutcome.httpError 400 t)
        = Except.error
            { message := "Bad request"
              statusCode := 400
              userMessage := "Invalid request to AI service." })
  ∧ (∀ s t, s ≠ 429 → s ≠ 401 → s ≠ 403 → s ≠ 400 →
      complete model (FetchOutcome.httpError s t)
        = Except.error
            { message := "OpenRouter error: " ++ toString s
              statusCode := 500
              userMessage := "Failed to generate response. Please try again." })
  ∧ (∀ s t t', complete model (FetchOutcome.httpError s t)
        = complete model (FetchOutcome.httpError s t')) := by
  refine ⟨rfl, by decide, fun t => rfl, by decide, fun t => rfl, fun t => rfl, fun t => rfl,
    ?_, fun s t t' => rfl⟩
  intro s t h1 h2 h3 h4
  show Except.error (handleHttpError s t) = _
  rw [handleHttpError, if_neg h1, if_neg (by rintro (h | h); exacts [h2 h, h3 h]), if_neg h4]

/-- C5, witness: a generic provider failure (status 500) and the
rate-limit case evaluated concretely. -/
theorem C5_witness :
    complete "m" (FetchOutcome.httpError 500 "upstream body")
        = Except.error
            { message := "OpenRouter error: " ++ toString 500
              statusCode := 500
              userMessage := "Failed to generate response. Please try again." }
  ∧ complete "m" (FetchOutcome.httpError 429 "upstream body")
        = Except.error
            { message := "Rate limit exceeded"
              statusCode := 429
              userMessage := "Service is busy. Please try again in a moment." } :=
  ⟨(C5_errors "m").2.2.2.2.2.2.2.1 500 "upstream body"
      (by decide) (by decide) (by decide) (by decide),
   (C5_errors "m").2.2.1 "upstream body"⟩

/-! ## C7: successful completion -/

/-- C7: an HTTP-success response never fails: the reply is the first
choice's content when present and non-empty, and the fixed fallback
sentence otherwise; the returned model field is always the configured
model identifier, whatever the body contains. -/
theorem C7_success (model : String) (body : CompletionBody) :
    (∃ resp, complete model (FetchOutcome.success body) = Except.ok resp
      ∧ resp.model = model)
  ∧ (∀ content, body.choices.head? = some (some content) → content ≠ "" →
      complete model (FetchOutcome.success body)
        = Except.ok { reply := content, model := model })
  ∧ ((body.choices.head? = none ∨ body.choices.head? = some none
        ∨ body.choices.head? = some (some "")) →
      complete model (FetchOutcome.success body)
        = Except.ok { reply := FALLBACK_REPLY, model := model }) := by
  refine ⟨⟨_, rfl, rfl⟩, ?_, ?_⟩
  · intro content hc hne
    simp only [complete, hc]
    rw [if_neg hne]
  · rintro (hc | hc | hc) <;> simp [complete, hc]

/-- C7, witness: a present non-empty content, an absent choice list, and
an empty content, all resolved concretely. -/
theorem C7_witness :
    complete "m" (FetchOutcome.success { choices := [some "Hello."] })
        = Except.ok { reply := "Hello.", model := "m" }
  ∧ complete "m" (FetchOutcome.success { choices := [] })
        = Except.ok { reply := FALLBACK_REPLY, model := "m" }
  ∧ complete "m" (FetchOutcome.success { choices := [some ""] })
        = Except.ok { reply := FALLBACK_REPLY, model := "m" } :=
  ⟨(C7_success "m" { choices := [some "Hello."] }).2.1 "Hello." (by decide) (by decide),
   (C7_success "m" { choices := [] }).2.2 (Or.inl (by decide)),
   (C7_success "m" { choices := [some ""] }).2.2 (Or.inr (Or.inr (by decide)))⟩

/-! ## C10: input validation in the serve handler -/

/-- No typed error of the completion client carries the InvalidInput
user message, so a 400 "Message is required" response can only come from
the validation step. -/
theorem complete_userMessage_ne (model : String) (outcome : FetchOutcome)
    (e : AIServiceError) (h : complete model outcome = Except.error e) :
    e.userMessage ≠ "Message is required" := by
  cases outcome with
  | success body => simp [complete] at h
  | httpError s t =>
    simp only [complete, Except.error.injEq] at h
    rw [← h]
    unfold handleHttpError
    split_ifs
    · decide
    · decide
    · decide
    · show ("Failed to generate response. Please try again." : String) ≠ "Message is required"
      decide
  | abortError =>
    simp only [complete, Except.error.injEq] at h
    rw [← h]
    decide
  | otherError msg =>
    simp only [complete, Except.error.injEq] at h
    rw [← h]
    show ("An unexpected error occurred. Please try again." : String) ≠ "Message is required"
    decide

/-- C10, counterexample: a request whose message is the empty string —
present, and a string — still receives the InvalidInput 400 error, so
"missing or not a string" does not characterize the 400 response. -/
theorem C10_counterexample :
    ¬ (serveHandler (some "key") "m"
          { message := JsonField.strVal "", conversationHistory := [],
            knowledgeContext := "", companyName := "c" } FetchOutcome.abortError
          = HandlerResponse.error "Message is required" 400
        ↔ (JsonField.strVal "" = JsonField.absent
            ∨ JsonField.strVal "" = JsonField.nonString)) := by
  decide

/-- C10 (amended): the InvalidInput error (status 400, "Message is
required") is returned iff the message is missing, not a string, or the
empty string (JavaScript falsiness); in that case the response does not
depend on the provider outcome — no completion call is attempted. -/
theorem C10_amended (apiKey : Option String) (model : String) (req : ChatRequest)
    (outcome : FetchOutcome) :
    (serveHandler apiKey model req outcome = HandlerResponse.error "Message is required" 400
      ↔ messageInvalid req.message = true)
  ∧ (messageInvalid req.message = true →
      ∀ outcome', serveHandler apiKey model req outcome
        = serveHandler apiKey model req outcome') := by
  by_cases hinv : messageInvalid req.message = true
  · constructor
    · rw [serveHandler.eq_def, if_pos hinv]
      simp [hinv]
    · intro _ outcome'
      rw [serveHandler.eq_def, serveHandler.eq_def, if_pos hinv, if_pos hinv]
  · refine ⟨⟨?_, fun habs => absurd habs hinv⟩, fun habs => absurd habs hinv⟩
    rw [serveHandler.eq_def, if_neg hinv]
    intro hres
    exfalso
    cases apiKey with
    | none => simp at hres
    | some k =>
      cases hc : complete model outcome with
      | ok resp => simp [hc] at hres
      | error e =>
        rw [hc] at hres
        simp only [HandlerResponse.error.injEq] at hres
        exact complete_userMessage_ne model outcome e hc hres.1

/-- C10, witness: an absent message is rejected with the fixed 400
response, independently of the provider outcome. -/
theorem C10_witness :
    (serveHandler (some "key") "m"
        { message := JsonField.absent, conversationHistory := [], knowledgeContext := "",
          companyName := "c" } FetchOutcome.abortError
      = HandlerResponse.error "Message is required" 400)
  ∧ serveHandler (some "key") "m"
        { message := JsonField.absent, conversationHistory := [], knowledgeContext := "",
          companyName := "c" } FetchOutcome.abortError
      = serveHandler (some "key") "m"
          { message := JsonField.absent, conversationHistory := [], knowledgeContext := "",
            companyName := "c" } (FetchOutcome.httpError 429 "x") :=
  ⟨(C10_amended (some "key") "m"
      { message := JsonField.absent, conversationHistory := [], knowledgeContext := "",
        companyName := "c" } FetchOutcome.abortError).1.mpr (by decide),
   (C10_amended (some "key") "m"
      { message := JsonField.absent, conversationHistory := [], knowledgeContext := "",
        companyName := "c" } FetchOutcome.abortError).2 (by decide) (FetchOutcome.httpError 429 "x")⟩


/-! ## C8: question-type detection -/

/-- The best score tracked by the fold of `detectQuestionType` is the
running maximum of the per-category match counts. -/
theorem dqtFold_score (kws : List String) :
    ∀ (l : List (String × List String)) (acc : Option String × Nat),
      (l.foldl (fun acc entry =>
          if acc.2 < matchCount kws entry.2 then (some entry.1, matchCount kws entry.2)
          else acc) acc).2
        = l.foldl (fun b entry => max b (matchCount kws entry.2)) acc.2 := by
  intro l
  induction l with
  | nil => intro acc; rfl
  | cons e rest ih =>
    intro acc
    simp only [List.foldl_cons]
    by_cases h : acc.2 < matchCount kws e.2
    · rw [if_pos h, ih]
      congr 1
      show matchCount kws e.2 = max acc.2 (matchCount kws e.2)
      omega
    · rw [if_neg h, ih]
      congr 1
      omega

/-- If no remaining category beats the current best score, the fold of
`detectQuestionType` keeps its accumulator. -/
theorem dqtFold_skip (kws : List String) :
    ∀ (l : List (String × List String)) (acc : Option String × Nat),
      (∀ e ∈ l, matchCount kws e.2 ≤ acc.2) →
      l.foldl (fun acc entry =>
          if acc.2 < matchCount kws entry.2 then (some entry.1, matchCount kws entry.2)
          else acc) acc = acc := by
  intro l
  induction l with
  | nil => intro acc _; rfl
  | cons e rest ih =>
    intro acc h
    simp only [List.foldl_cons]
    rw [if_neg (by have := h e (List.mem_cons_self _ _); omega)]
    exact ih acc (fun e' he' => h e' (List.mem_cons_of_mem _ he'))

/-- A category that beats the accumulated best and is not beaten by any
later category wins the fold of `detectQuestionType`. -/
theorem dqtFold_update (kws : List String) (acc : Option String × Nat)
    (e : String × List String) (rest : List (String × List String))
    (hbeat : acc.2 < matchCount kws e.2)
    (hrest : ∀ e' ∈ rest, matchCount kws e'.2 ≤ matchCount kws e.2) :
    (e :: rest).foldl (fun acc entry =>
          if acc.2 < matchCount kws entry.2 then (some entry.1, matchCount kws entry.2)
          else acc) acc = (some e.1, matchCount kws e.2) := by
  simp only [List.foldl_cons]
  rw [if_pos hbeat]
  exact dqtFold_skip kws rest _ hrest

/-- When every category count is zero, `detectQuestionType` is none. -/
theorem dqt_first_none (kws : List String)
    (h : matchCount kws servicesIndicators = 0 ∧ matchCount kws pricingIndicators = 0 ∧ matchCount kws supportIndicators = 0 ∧ matchCount kws processIndicators = 0 ∧ matchCount kws securityIndicators = 0 ∧ matchCount kws legalIndicators = 0 ∧ matchCount kws faqIndicators = 0) :
    detectQuestionType kws = none := by
  simp only [detectQuestionType, QUESTION_PATTERNS]
  rw [dqtFold_skip kws _ _ ?hall]
  case hall =>
    intro e he
    simp only [List.mem_cons, List.not_mem_nil, or_false] at he
    obtain ⟨h1, h2, h3, h4, h5, h6, h7⟩ := h
    rcases he with rfl | rfl | rfl | rfl | rfl | rfl | rfl
    · exact h1.le
    · exact h2.le
    · exact h3.le
    · exact h4.le
    · exact h5.le
    · exact h6.le
    · exact h7.le
  rfl

/-- The first category attaining the positive maximum count wins. -/
theorem dqt_first_services (kws : List String)
    (h : 0 < matchCount kws servicesIndicators
        ∧ matchCount kws pricingIndicators ≤ matchCount kws servicesIndicators
        ∧ matchCount kws supportIndicators ≤ matchCount kws servicesIndicators
        ∧ matchCount kws processIndicators ≤ matchCount kws servicesIndicators
        ∧ matchCount kws securityIndicators ≤ matchCount kws servicesIndicators
        ∧ matchCount kws legalIndicators ≤ matchCount kws servicesIndicators
        ∧ matchCount kws faqIndicators ≤ matchCount kws servicesIndicators) :
    detectQuestionType kws = some "services" := by
  obtain ⟨hw, h2, h3, h4, h5, h6, h7⟩ := h
  simp only [detectQuestionType, QUESTION_PATTERNS]
  rw [show ([("services", servicesIndicators), ("pricing", pricingIndicators), ("support", supportIndicators), ("process", processIndicators), ("security", securityIndicators), ("legal", legalIndicators), ("faq", faqIndicators)] : List (String × List String))
      = ("services", servicesIndicators) :: [("pricing", pricingIndicators), ("support", supportIndicators), ("process", processIndicators), ("security", securityIndicators), ("legal", legalIndicators), ("faq", faqIndicators)] from rfl]
  rw [dqtFold_update kws _ _ _ ?hbeat ?hrest]
  case hbeat => exact hw
  case hrest =>
    intro e' he'
    simp only [List.mem_cons, List.not_mem_nil, or_false] at he'
    rcases he' with rfl | rfl | rfl | rfl | rfl | rfl
    · exact h2
    · exact h3
    · exact h4
    · exact h5
    · exact h6
    · exact h7
  show (if 0 < matchCount kws servicesIndicators then some "services" else none) = some "services"
  rw [if_pos hw]

/-- The first category attaining the positive maximum count wins. -/
theorem dqt_first_pricing (kws : List String)
    (h : 0 < matchCount kws pricingIndicators
        ∧ matchCount kws servicesIndicators < matchCount kws pricingIndicators
        ∧ matchCount kws supportIndicators ≤ matchCount kws pricingIndicators
        ∧ matchCount kws processIndicators ≤ matchCount kws pricingIndicators
        ∧ matchCount kws securityIndicators ≤ matchCount kws pricingIndicators
        ∧ matchCount kws legalIndicators ≤ matchCount kws pricingIndicators
        ∧ matchCount kws faqIndicators ≤ matchCount kws pricingIndicators) :
    detectQuestionType kws = some "pricing" := by
  obtain ⟨hw, h1, h3, h4, h5, h6, h7⟩ := h
  simp only [detectQuestionType, QUESTION_PATTERNS]
  rw [show ([("services", servicesIndicators), ("pricing", pricingIndicators), ("support", supportIndicators), ("process", processIndicators), ("security", securityIndicators), ("legal", legalIndicators), ("faq", faqIndicators)] : List (String × List String))
      = [("services", servicesIndicators)] ++ (("pricing", pricingIndicators) :: [("support", supportIndicators), ("process", processIndicators), ("security", securityIndicators), ("legal", legalIndicators), ("faq", faqIndicators)]) from rfl]
  rw [List.foldl_append]
  rw [dqtFold_update kws _ _ _ ?hbeat ?hrest]
  case hbeat =>
    rw [dqtFold_score]
    simp only [List.foldl_cons, List.foldl_nil]
    omega
  case hrest =>
    intro e' he'
    simp only [List.mem_cons, List.not_mem_nil, or_false] at he'
    rcases he' with rfl | rfl | rfl | rfl | rfl
    · exact h3
    · exact h4
    · exact h5
    · exact h6
    · exact h7
  show (if 0 < matchCount kws pricingIndicators then some "pricing" else none) = some "pricing"
  rw [if_pos hw]

/-- The first category attaining the positive maximum count wins. -/
theorem dqt_first_support (kws : List String)
    (h : 0 < matchCount kws supportIndicators
        ∧ matchCount kws servicesIndicators < matchCount kws supportIndicators
        ∧ matchCount kws pricingIndicators < matchCount kws supportIndicators
        ∧ matchCount kws processIndicators ≤ matchCount kws supportIndicators
        ∧ matchCount kws securityIndicators ≤ matchCount kws supportIndicators
        ∧ matchCount kws legalIndicators ≤ matchCount kws supportIndicators
        ∧ matchCount kws faqIndicators ≤ matchCount kws supportIndicators) :
    detectQuestionType kws = some "support" := by
  obtain ⟨hw, h1, h2, h4, h5, h6, h7⟩ := h
  simp only [detectQuestionType, QUESTION_PATTERNS]
  rw [show ([("services", servicesIndicators), ("pricing", pricingIndicators), ("support", supportIndicators), ("process", processIndicators), ("security", securityIndicators), ("legal", legalIndicators), ("faq", faqIndicators)] : List (String × List String))
      = [("services", servicesIndicators), ("pricing", pricingIndicators)] ++ (("support", supportIndicators) :: [("process", processIndicators), ("security", securityIndicators), ("legal", legalIndicators), ("faq", faqIndicators)]) from rfl]
  rw [List.foldl_append]
  rw [dqtFold_update kws _ _ _ ?hbeat ?hrest]
  case hbeat =>
    rw [dqtFold_score]
    simp only [List.foldl_cons, List.foldl_nil]
    omega
  case hrest =>
    intro e' he'
    simp only [List.mem_cons, List.not_mem_nil, or_false] at he'
    rcases he' with rfl | rfl | rfl | rfl
    · exact h4
    · exact h5
    · exact h6
    · exact h7
  show (if 0 < matchCount kws supportIndicators then some "support" else none) = some "support"
  rw [if_pos hw]

/-- The first category attaining the positive maximum count wins. -/
theorem dqt_first_process (kws : List String)
    (h : 0 < matchCount kws processIndicators
        ∧ matchCount kws servicesIndicators < matchCount kws processIndicators
        ∧ matchCount kws pricingIndicators < matchCount kws processIndicators
        ∧ matchCount kws supportIndicators < matchCount kws processIndicators
        ∧ matchCount kws securityIndicators ≤ matchCount kws processIndicators
        ∧ matchCount kws legalIndicators ≤ matchCount kws processIndicators
        ∧ matchCount kws faqIndicators ≤ matchCount kws processIndicators) :
    detectQuestionType kws = some "process" := by
  obtain ⟨hw, h1, h2, h3, h5, h6, h7⟩ := h
  simp only [detectQuestionType, QUESTION_PATTERNS]
  rw [show ([("services", servicesIndicators), ("pricing", pricingIndicators), ("support", supportIndicators), ("process", processIndicators), ("security", securityIndicators), ("legal", legalIndicators), ("faq", faqIndicators)] : List (String × List String))
      = [("services", servicesIndicators), ("pricing", pricingIndicators), ("support", supportIndicators)] ++ (("process", processIndicators) :: [("security", securityIndicators), ("legal", legalIndicators), ("faq", faqIndicators)]) from rfl]
  rw [List.foldl_append]
  rw [dqtFold_update kws _ _ _ ?hbeat ?hrest]
  case hbeat =>
    rw [dqtFold_score]
    simp only [List.foldl_cons, List.foldl_nil]
    omega
  case hrest =>
    intro e' he'
    simp only [List.mem_cons, List.not_mem_nil, or_false] at he'
    rcases he' with rfl | rfl | rfl
    · exact h5
    · exact h6
    · exact h7
  show (if 0 < matchCount kws processIndicators then some "process" else none) = some "process"
  rw [if_pos hw]

/-- The first category attaining the positive maximum count wins. -/
theorem dqt_first_security (kws : List String)
    (h : 0 < matchCount kws securityIndicators
        ∧ matchCount kws servicesIndicators < matchCount kws securityIndicators
        ∧ matchCount kws pricingIndicators < matchCount kws securityIndicators
        ∧ matchCount kws supportIndicators < matchCount kws securityIndicators
        ∧ matchCount kws processIndicators < matchCount kws securityIndicators
        ∧ matchCount kws legalIndicators ≤ matchCount kws securityIndicators
        ∧ matchCount kws faqIndicators ≤ matchCount kws securityIndicators) :
    detectQuestionType kws = some "security" := by
  obtain ⟨hw, h1, h2, h3, h4, h6, h7⟩ := h
  simp only [detectQuestionType, QUESTION_PATTERNS]
  rw [show ([("services", servicesIndicators), ("pricing", pricingIndicators), ("support", supportIndicators), ("process", processIndicators), ("security", securityIndicators), ("legal", legalIndicators), ("faq", faqIndicators)] : List (String × List String))
      = [("services", servicesIndicators), ("pricing", pricingIndicators), ("support", supportIndicators), ("process", processIndicators)] ++ (("security", securityIndicators) :: [("legal", legalIndicators), ("faq", faqIndicators)]) from rfl]
  rw [List.foldl_append]
  rw [dqtFold_update kws _ _ _ ?hbeat ?hrest]
  case hbeat =>
    rw [dqtFold_score]
    simp only [List.foldl_cons, List.foldl_nil]
    omega
  case hrest =>
    intro e' he'
    simp only [List.mem_cons, List.not_mem_nil, or_false] at he'
    rcases he' with rfl | rfl
    · exact h6
    · exact h7
  show (if 0 < matchCount kws securityIndicators then some "security" else none) = some "security"
  rw [if_pos hw]

/-- The first category attaining the positive maximum count wins. -/
theorem dqt_first_legal (kws : List String)
    (h : 0 < matchCount kws legalIndicators
        ∧ matchCount kws servicesIndicators < matchCount kws legalIndicators
        ∧ matchCount kws pricingIndicators < matchCount kws legalIndicators
        ∧ matchCount kws supportIndicators < matchCount kws legalIndicators
        ∧ matchCount kws processIndicators < matchCount kws legalIndicators
        ∧ matchCount kws securityIndicators < matchCount kws legalIndicators
        ∧ matchCount kws faqIndicators ≤ matchCount kws legalIndicators) :
    detectQuestionType kws = some "legal" := by
  obtain ⟨hw, h1, h2, h3, h4, h5, h7⟩ := h
  simp only [detectQuestionType, QUESTION_PATTERNS]
  rw [show ([("services", servicesIndicators), ("pricing", pricingIndicators), ("support", supportIndicators), ("process", processIndicators), ("security", securityIndicators), ("legal", legalIndicators), ("faq", faqIndicators)] : List (String × List String))
      = [("services", servicesIndicators), ("pricing", pricingIndicators), ("support", supportIndicators), ("process", processIndicators), ("security", securityIndicators)] ++ (("legal", legalIndicators) :: [("faq", faqIndicators)]) from rfl]
  rw [List.foldl_append]
  rw [dqtFold_update kws _ _ _ ?hbeat ?hrest]
  case hbeat =>
    rw [dqtFold_score]
    simp only [List.foldl_cons, List.foldl_nil]
    omega
  case hrest =>
    intro e' he'
    simp only [List.mem_cons, List.not_mem_nil, or_false] at he'
    rcases he' with rfl
    · exact h7
  show (if 0 < matchCount kws legalIndicators then some "legal" else none) = some "legal"
  rw [if_pos hw]

/-- The first category attaining the positive maximum count wins. -/
theorem dqt_first_faq (kws : List String)
    (h : 0 < matchCount kws faqIndicators
        ∧ matchCount kws servicesIndicators < matchCount kws faqIndicators
        ∧ matchCount kws pricingIndicators < matchCount kws faqIndicators
        ∧ matchCount kws supportIndicators < matchCount kws faqIndicators
        ∧ matchCount kws processIndicators < matchCount kws faqIndicators
        ∧ matchCount kws securityIndicators < matchCount kws faqIndicators
        ∧ matchCount kws legalIndicators < matchCount kws faqIndicators) :
    detectQuestionType kws = some "faq" := by
  obtain ⟨hw, h1, h2, h3, h4, h5, h6⟩ := h
  simp only [detectQuestionType, QUESTION_PATTERNS]
  rw [show ([("services", servicesIndicators), ("pricing", pricingIndicators), ("support", supportIndicators), ("process", processIndicators), ("security", securityIndicators), ("legal", legalIndicators), ("faq", faqIndicators)] : List (String × List String))
      = [("services", servicesIndicators), ("pricing", pricingIndicators), ("support", supportIndicators), ("process", processIndicators), ("security", securityIndicators), ("legal", legalIndicators)] ++ (("faq", faqIndicators) :: []) from rfl]
  rw [List.foldl_append]
  rw [dqtFold_update kws _ _ _ ?hbeat ?hrest]
  case hbeat =>
    rw [dqtFold_score]
    simp only [List.foldl_cons, List.foldl_nil]
    omega
  case hrest =>
    intro e' he'
    simp only [List.not_mem_nil] at he'
  show (if 0 < matchCount kws faqIndicators then some "faq" else none) = some "faq"
  rw [if_pos hw]

set_option maxHeartbeats 1600000 in
/-- C8: `detectQuestionType` returns none exactly when the match count
of every category is zero; otherwise it returns the first category, in the
fixed mapping order, whose count is positive, strictly greater than
every earlier count and at least every later count (ties keep the
earlier category, by the strict `count > best` comparison). -/
theorem C8_detect (kws : List String) :
    (detectQuestionType kws = none ↔
        matchCount kws servicesIndicators = 0
          ∧ matchCount kws pricingIndicators = 0
          ∧ matchCount kws supportIndicators = 0
          ∧ matchCount kws processIndicators = 0
          ∧ matchCount kws securityIndicators = 0
          ∧ matchCount kws legalIndicators = 0
          ∧ matchCount kws faqIndicators = 0)
  ∧ (detectQuestionType kws = some "services" ↔
        0 < matchCount kws servicesIndicators
          ∧ matchCount kws pricingIndicators ≤ matchCount kws servicesIndicators
          ∧ matchCount kws supportIndicators ≤ matchCount kws servicesIndicators
          ∧ matchCount kws processIndicators ≤ matchCount kws servicesIndicators
          ∧ matchCount kws securityIndicators ≤ matchCount kws servicesIndicators
          ∧ matchCount kws legalIndicators ≤ matchCount kws servicesIndicators
          ∧ matchCount kws faqIndicators ≤ matchCount kws servicesIndicators)
  ∧ (detectQuestionType kws = some "pricing" ↔
        0 < matchCount kws pricingIndicators
          ∧ matchCount kws servicesIndicators < matchCount kws pricingIndicators
          ∧ matchCount kws supportIndicators ≤ matchCount kws pricingIndicators
          ∧ matchCount kws processIndicators ≤ matchCount kws pricingIndicators
          ∧ matchCount kws securityIndicators ≤ matchCount kws pricingIndicators
          ∧ matchCount kws legalIndicators ≤ matchCount kws pricingIndicators
          ∧ matchCount kws faqIndicators ≤ matchCount kws pricingIndicators)
  ∧ (detectQuestionType kws = some "support" ↔
        0 < matchCount kws supportIndicators
          ∧ matchCount kws servicesIndicators < matchCount kws supportIndicators
          ∧ matchCount kws pricingIndicators < matchCount kws supportIndicators
          ∧ matchCount kws processIndicators ≤ matchCount kws supportIndicators
          ∧ matchCount kws securityIndicators ≤ matchCount kws supportIndicators
          ∧ matchCount kws legalIndicators ≤ matchCount kws supportIndicators
          ∧ matchCount kws faqIndicators ≤ matchCount kws supportIndicators)
  ∧ (detectQuestionType kws = some "process" ↔
        0 < matchCount kws processIndicators
          ∧ matchCount kws servicesIndicators < matchCount kws processIndicators
          ∧ matchCount kws pricingIndicators < matchCount kws processIndicators
          ∧ matchCount kws supportIndicators < matchCount kws processIndicators
          ∧ matchCount kws securityIndicators ≤ matchCount kws processIndicators
          ∧ matchCount kws legalIndicators ≤ matchCount kws processIndicators
          ∧ matchCount kws faqIndicators ≤ matchCount kws processIndicators)
  ∧ (detectQuestionType kws = some "security" ↔
        0 < matchCount kws securityIndicators
          ∧ matchCount kws servicesIndicators < matchCount kws securityIndicators
          ∧ matchCount kws pricingIndicators < matchCount kws securityIndicators
          ∧ matchCount kws supportIndicators < matchCount kws securityIndicators
          ∧ matchCount kws processIndicators < matchCount kws securityIndicators
          ∧ matchCount kws legalIndicators ≤ matchCount kws securityIndicators
          ∧ matchCount kws faqIndicators ≤ matchCount kws securityIndicators)
  ∧ (detectQuestionType kws = some "legal" ↔
        0 < matchCount kws legalIndicators
          ∧ matchCount kws servicesIndicators < matchCount kws legalIndicators
          ∧ matchCount kws pricingIndicators < matchCount kws legalIndicators
          ∧ matchCount kws supportIndicators < matchCount kws legalIndicators
          ∧ matchCount kws processIndicators < matchCount kws legalIndicators
          ∧ matchCount kws securityIndicators < matchCount kws legalIndicators
          ∧ matchCount kws faqIndicators ≤ matchCount kws legalIndicators)
  ∧ (detectQuestionType kws = some "faq" ↔
        0 < matchCount kws faqIndicators
          ∧ matchCount kws servicesIndicators < matchCount kws faqIndicators
          ∧ matchCount kws pricingIndicators < matchCount kws faqIndicators
          ∧ matchCount kws supportIndicators < matchCount kws faqIndicators
          ∧ matchCount kws processIndicators < matchCount kws faqIndicators
          ∧ matchCount kws securityIndicators < matchCount kws faqIndicators
          ∧ matchCount kws legalIndicators < matchCount kws faqIndicators) := by
  have hex : (matchCount kws servicesIndicators = 0 ∧ matchCount kws pricingIndicators = 0 ∧ matchCount kws supportIndicators = 0 ∧ matchCount kws processIndicators = 0 ∧ matchCount kws securityIndicators = 0 ∧ matchCount kws legalIndicators = 0 ∧ matchCount kws faqIndicators = 0)
      ∨ (0 < matchCount kws servicesIndicators ∧ matchCount kws pricingIndicators ≤ matchCount kws servicesIndicators ∧ matchCount kws supportIndicators ≤ matchCount kws servicesIndicators ∧ matchCount kws processIndicators ≤ matchCount kws servicesIndicators ∧ matchCount kws securityIndicators ≤ matchCount kws servicesIndicators ∧ matchCount kws legalIndicators ≤ matchCount kws servicesIndicators ∧ matchCount kws faqIndicators ≤ matchCount kws servicesIndicators)
      ∨ (0 < matchCount kws pricingIndicators ∧ matchCount kws servicesIndicators < matchCount kws pricingIndicators ∧ matchCount kws supportIndicators ≤ matchCount kws pricingIndicators ∧ matchCount kws processIndicators ≤ matchCount kws pricingIndicators ∧ matchCount kws securityIndicators ≤ matchCount kws pricingIndicators ∧ matchCount kws legalIndicators ≤ matchCount kws pricingIndicators ∧ matchCount kws faqIndicators ≤ matchCount kws pricingIndicators)
      ∨ (0 < matchCount kws supportIndicators ∧ matchCount kws servicesIndicators < matchCount kws supportIndicators ∧ matchCount kws pricingIndicators < matchCount kws supportIndicators ∧ matchCount kws processIndicators ≤ matchCount kws supportIndicators ∧ matchCount kws securityIndicators ≤ matchCount kws supportIndicators ∧ matchCount kws legalIndicators ≤ matchCount kws supportIndicators ∧ matchCount kws faqIndicators ≤ matchCount kws supportIndicators)
      ∨ (0 < matchCount kws processIndicators ∧ matchCount kws servicesIndicators < matchCount kws processIndicators ∧ matchCount kws pricingIndicators < matchCount kws processIndicators ∧ matchCount kws supportIndicators < matchCount kws processIndicators ∧ matchCount kws securityIndicators ≤ matchCount kws processIndicators ∧ matchCount kws legalIndicators ≤ matchCount kws processIndicators ∧ matchCount kws faqIndicators ≤ matchCount kws processIndicators)
      ∨ (0 < matchCount kws securityIndicators ∧ matchCount kws servicesIndicators < matchCount kws securityIndicators ∧ matchCount kws pricingIndicators < matchCount kws securityIndicators ∧ matchCount kws supportIndicators < matchCount kws securityIndicators ∧ matchCount kws processIndicators < matchCount kws securityIndicators ∧ matchCount kws legalIndicators ≤ matchCount kws securityIndicators ∧ matchCount kws faqIndicators ≤ matchCount kws securityIndicators)
      ∨ (0 < matchCount kws legalIndicators ∧ matchCount kws servicesIndicators < matchCount kws legalIndicators ∧ matchCount kws pricingIndicators < matchCount kws legalIndicators ∧ matchCount kws supportIndicators < matchCount kws legalIndicators ∧ matchCount kws processIndicators < matchCount kws legalIndicators ∧ matchCount kws securityIndicators < matchCount kws legalIndicators ∧ matchCount kws faqIndicators ≤ matchCount kws legalIndicators)
      ∨ (0 < matchCount kws faqIndicators ∧ matchCount kws servicesIndicators < matchCount kws faqIndicators ∧ matchCount kws pricingIndicators < matchCount kws faqIndicators ∧ matchCount kws supportIndicators < matchCount kws faqIndicators ∧ matchCount kws processIndicators < matchCount kws faqIndicators ∧ matchCount kws securityIndicators < matchCount kws faqIndicators ∧ matchCount kws legalIndicators < matchCount kws faqIndicators) := by
    by_cases hh1 : 0 < matchCount kws servicesIndicators
    · -- services becomes the champion
      by_cases hh2 : matchCount kws servicesIndicators < matchCount kws pricingIndicators
      · -- pricing becomes the champion
        by_cases hh3 : matchCount kws pricingIndicators < matchCount kws supportIndicators
        · -- support becomes the champion
          by_cases hh4 : matchCount kws supportIndicators < matchCount kws processIndicators
          · -- process becomes the champion
            by_cases hh5 : matchCount kws processIndicators < matchCount kws securityIndicators
            · -- security becomes the champion
              by_cases hh6 : matchCount kws securityIndicators < matchCount kws legalIndicators
              · -- legal becomes the champion
                by_cases hh7 : matchCount kws legalIndicators < matchCount kws faqIndicators
                · -- faq becomes the champion
                  exact Or.inr (Or.inr (Or.inr (Or.inr (Or.inr (Or.inr (Or.inr (by omega)))))))
                · -- champion unchanged
                  exact Or.inr (Or.inr (Or.inr (Or.inr (Or.inr (Or.inr (Or.inl (by omega)))))))
              · -- champion unchanged
                by_cases hh7 : matchCount kws securityIndicators < matchCount kws faqIndicators
                · -- faq becomes the champion
                  exact Or.inr (Or.inr (Or.inr (Or.inr (Or.inr (Or.inr (Or.inr (by omega)))))))
                · -- champion unchanged
                  exact Or.inr (Or.inr (Or.inr (Or.inr (Or.inr (Or.inl (by omega))))))
            · -- champion unchanged
              by_cases hh6 : matchCount kws processIndicators < matchCount kws legalIndicators
              · -- legal becomes the champion
                by_cases hh7 : matchCount kws legalIndicators < matchCount kws faqIndicators
                · -- faq becomes the champion
                  exact Or.inr (Or.inr (Or.inr (Or.inr (Or.inr (Or.inr (Or.inr (by omega)))))))
                · -- champion unchanged
                  exact Or.inr (Or.inr (Or.inr (Or.inr (Or.inr (Or.inr (Or.inl (by omega)))))))
              · -- champion unchanged
                by_cases hh7 : matchCount kws processIndicators < matchCount kws faqIndicators
                · -- faq becomes the champion
                  exact Or.inr (Or.inr (Or.inr (Or.inr (Or.inr (Or.inr (Or.inr (by omega)))))))
                · -- champion unchanged
                  exact Or.inr (Or.inr (Or.inr (Or.inr (Or.inl (by omega)))))
          · -- champion unchanged
            by_cases hh5 : matchCount kws supportIndicators < matchCount kws securityIndicators
            · -- security becomes the champion
              by_cases hh6 : matchCount kws securityIndicators < matchCount kws legalIndicators
              · -- legal becomes the champion
                by_cases hh7 : matchCount kws legalIndicators < matchCount kws faqIndicators
                · -- faq becomes the champion
                  exact Or.inr (Or.inr (Or.inr (Or.inr (Or.inr (Or.inr (Or.inr (by omega)))))))
                · -- champion unchanged
                  exact Or.inr (Or.inr (Or.inr (Or.inr (Or.inr (Or.inr (Or.inl (by omega)))))))
              · -- champion unchanged
                by_cases hh7 : matchCount kws securityIndicators < matchCount kws faqIndicators
                · -- faq becomes the champion
                  exact Or.inr (Or.inr (Or.inr (Or.inr (Or.inr (Or.inr (Or.inr (by omega)))))))
                · -- champion unchanged
                  exact Or.inr (Or.inr (Or.inr (Or.inr (Or.inr (Or.inl (by omega))))))
            · -- champion unchanged
              by_cases hh6 : matchCount kws supportIndicators < matchCount kws legalIndicators
              · -- legal becomes the champion
                by_cases hh7 : matchCount kws legalIndicators < matchCount kws faqIndicators
                · -- faq becomes the champion
                  exact Or.inr (Or.inr (Or.inr (Or.inr (Or.inr (Or.inr (Or.inr (by omega)))))))
                · -- champion unchanged
                  exact Or.inr (Or.inr (Or.inr (Or.inr (Or.inr (Or.inr (Or.inl (by omega)))))))
              · -- champion unchanged
                by_cases hh7 : matchCount kws supportIndicators < matchCount kws faqIndicators
                · -- faq becomes the champion
                  exact Or.inr (Or.inr (Or.inr (Or.inr (Or.inr (Or.inr (Or.inr (by omega)))))))
                · -- champion unchanged
                  exact Or.inr (Or.inr (Or.inr (Or.inl (by omega))))
        · -- champion unchanged
          by_cases hh4 : matchCount kws pricingIndicators < matchCount kws processIndicators
          · -- process becomes the champion
            by_cases hh5 : matchCount kws processIndicators < matchCount kws securityIndicators
            · -- security becomes the champion
              by_cases hh6 : matchCount kws securityIndicators < matchCount kws legalIndicators
              · -- legal becomes the champion
                by_cases hh7 : matchCount kws legalIndicators < matchCount kws faqIndicators
                · -- faq becomes the champion
                  exact Or.inr (Or.inr (Or.inr (Or.inr (Or.inr (Or.inr (Or.inr (by omega)))))))
                · -- champion unchanged
                  exact Or.inr (Or.inr (Or.inr (Or.inr (Or.inr (Or.inr (Or.inl (by omega)))))))
              · -- champion unchanged
                by_cases hh7 : matchCount kws securityIndicators < matchCount kws faqIndicators
                · -- faq becomes the champion
                  exact Or.inr (Or.inr (Or.inr (Or.inr (Or.inr (Or.inr (Or.inr (by omega)))))))
                · -- champion unchanged
                  exact Or.inr (Or.inr (Or.inr (Or.inr (Or.inr (Or.inl (by omega))))))
            · -- champion unchanged
              by_cases hh6 : matchCount kws processIndicators < matchCount kws legalIndicators
              · -- legal becomes the champion
                by_cases hh7 : matchCount kws legalIndicators < matchCount kws faqIndicators
                · -- faq becomes the champion
                  exact Or.inr (Or.inr (Or.inr (Or.inr (Or.inr (Or.inr (Or.inr (by omega)))))))
                · -- champion unchanged
                  exact Or.inr (Or.inr (Or.inr (Or.inr (Or.inr (Or.inr (Or.inl (by omega)))))))
              · -- champion unchanged
                by_cases hh7 : matchCount kws processIndicators < matchCount kws faqIndicators
                · -- faq becomes the champion
                  exact Or.inr (Or.inr (Or.inr (Or.inr (Or.inr (Or.inr (Or.inr (by omega)))))))
                · -- champion unchanged
                  exact Or.inr (Or.inr (Or.inr (Or.inr (Or.inl (by omega)))))
          · -- champion unchanged
            by_cases hh5 : matchCount kws pricingIndicators < matchCount kws securityIndicators
            · -- security becomes the champion
              by_cases hh6 : matchCount kws securityIndicators < matchCount kws legalIndicators
              · -- legal becomes the champion
                by_cases hh7 : matchCount kws legalIndicators < matchCount kws faqIndicators
                · -- faq becomes the champion
                  exact Or.inr (Or.inr (Or.inr (Or.inr (Or.inr (Or.inr (Or.inr (by omega)))))))
                · -- champion unchanged
                  exact Or.inr (Or.inr (Or.inr (Or.inr (Or.inr (Or.inr (Or.inl (by omega)))))))
              · -- champion unchanged
                by_cases hh7 : matchCount kws securityIndicators < matchCount kws faqIndicators
                · -- faq becomes the champion
                  exact Or.inr (Or.inr (Or.inr (Or.inr (Or.inr (Or.inr (Or.inr (by omega)))))))
                · -- champion unchanged
                  exact Or.inr (Or.inr (Or.inr (Or.inr (Or.inr (Or.inl (by omega))))))
            · -- champion unchanged
              by_cases hh6 : matchCount kws pricingIndicators < matchCount kws legalIndicators
              · -- legal becomes the champion
                by_cases hh7 : matchCount kws legalIndicators < matchCount kws faqIndicators
                · -- faq becomes the champion
                  exact Or.inr (Or.inr (Or.inr (Or.inr (Or.inr (Or.inr (Or.inr (by omega)))))))
                · -- champion unchanged
                  exact Or.inr (Or.inr (Or.inr (Or.inr (Or.inr (Or.inr (Or.inl (by omega)))))))
              · -- champion unchanged
                by_cases hh7 : matchCount kws pricingIndicators < matchCount kws faqIndicators
                · -- faq becomes the champion
                  exact Or.inr (Or.inr (Or.inr (Or.inr (Or.inr (Or.inr (Or.inr (by omega)))))))
                · -- champion unchanged
                  exact Or.inr (Or.inr (Or.inl (by omega)))
      · -- champion unchanged
        by_cases hh3 : matchCount kws servicesIndicators < matchCount kws supportIndicators
        · -- support becomes the champion
          by_cases hh4 : matchCount kws supportIndicators < matchCount kws processIndicators
          · -- process becomes the champion
            by_cases hh5 : matchCount kws processIndicators < matchCount kws securityIndicators
            · -- security becomes the champion
              by_cases hh6 : matchCount kws securityIndicators < matchCount kws legalIndicators
              · -- legal becomes the champion
                by_cases hh7 : matchCount kws legalIndicators < matchCount kws faqIndicators
                · -- faq becomes the champion
                  exact Or.inr (Or.inr (Or.inr (Or.inr (Or.inr (Or.inr (Or.inr (by omega)))))))
                · -- champion unchanged
                  exact Or.inr (Or.inr (Or.inr (Or.inr (Or.inr (Or.inr (Or.inl (by omega)))))))
              · -- champion unchanged
                by_cases hh7 : matchCount kws securityIndicators < matchCount kws faqIndicators
                · -- faq becomes the champion
                  exact Or.inr (Or.inr (Or.inr (Or.inr (Or.inr (Or.inr (Or.inr (by omega)))))))
                · -- champion unchanged
                  exact Or.inr (Or.inr (Or.inr (Or.inr (Or.inr (Or.inl (by omega))))))
            · -- champion unchanged
              by_cases hh6 : matchCount kws processIndicators < matchCount kws legalIndicators
              · -- legal becomes the champion
                by_cases hh7 : matchCount kws legalIndicators < matchCount kws faqIndicators
                · -- faq becomes the champion
                  exact Or.inr (Or.inr (Or.inr (Or.inr (Or.inr (Or.inr (Or.inr (by omega)))))))
                · -- champion unchanged
                  exact Or.inr (Or.inr (Or.inr (Or.inr (Or.inr (Or.inr (Or.inl (by omega)))))))
              · -- champion unchanged
                by_cases hh7 : matchCount kws processIndicators < matchCount kws faqIndicators
                · -- faq becomes the champion
                  exact Or.inr (Or.inr (Or.inr (Or.inr (Or.inr (Or.inr (Or.inr (by omega)))))))
                · -- champion unchanged
                  exact Or.inr (Or.inr (Or.inr (Or.inr (Or.inl (by omega)))))
          · -- champion unchanged
            by_cases hh5 : matchCount kws supportIndicators < matchCount kws securityIndicators
            · -- security becomes the champion
              by_cases hh6 : matchCount kws securityIndicators < matchCount kws legalIndicators
              · -- legal becomes the champion
                by_cases hh7 : matchCount kws legalIndicators < matchCount kws faqIndicators
                · -- faq becomes the champion
                  exact Or.inr (Or.inr (Or.inr (Or.inr (Or.inr (Or.inr (Or.inr (by omega)))))))
                · -- champion unchanged
                  exact Or.inr (Or.inr (Or.inr (Or.inr (Or.inr (Or.inr (Or.inl (by omega)))))))
              · -- champion unchanged
                by_cases hh7 : matchCount kws securityIndicators < matchCount kws faqIndicators
                · -- faq becomes the champion
                  exact Or.inr (Or.inr (Or.inr (Or.inr (Or.inr (Or.inr (Or.inr (by omega)))))))
                · -- champion unchanged
                  exact Or.inr (Or.inr (Or.inr (Or.inr (Or.inr (Or.inl (by omega))))))
            · -- champion unchanged
              by_cases hh6 : matchCount kws supportIndicators < matchCount kws legalIndicators
              · -- legal becomes the champion
                by_cases hh7 : matchCount kws legalIndicators < matchCount kws faqIndicators
                · -- faq becomes the champion
                  exact Or.inr (Or.inr (Or.inr (Or.inr (Or.inr (Or.inr (Or.inr (by omega)))))))
                · -- champion unchanged
                  exact Or.inr (Or.inr (Or.inr (Or.inr (Or.inr (Or.inr (Or.inl (by omega)))))))
              · -- champion unchanged
                by_cases hh7 : matchCount kws supportIndicators < matchCount kws faqIndicators
                · -- faq becomes the champion
                  exact Or.inr (Or.inr (Or.inr (Or.inr (Or.inr (Or.inr (Or.inr (by omega)))))))
                · -- champion unchanged
                  exact Or.inr (Or.inr (Or.inr (Or.inl (by omega))))
        · -- champion unchanged
          by_cases hh4 : matchCount kws servicesIndicators < matchCount kws processIndicators
          · -- process becomes the champion
            by_cases hh5 : matchCount kws processIndicators < matchCount kws securityIndicators
            · -- security becomes the champion
              by_cases hh6 : matchCount kws securityIndicators < matchCount kws legalIndicators
              · -- legal becomes the champion
                by_cases hh7 : matchCount kws legalIndicators < matchCount kws faqIndicators
                · -- faq becomes the champion
                  exact Or.inr (Or.inr (Or.inr (Or.inr (Or.inr (Or.inr (Or.inr (by omega)))))))
                · -- champion unchanged
                  exact Or.inr (Or.inr (Or.inr (Or.inr (Or.inr (Or.inr (Or.inl (by omega)))))))
              · -- champion unchanged
                by_cases hh7 : matchCount kws securityIndicators < matchCount kws faqIndicators
                · -- faq becomes the champion
                  exact Or.inr (Or.inr (Or.inr (Or.inr (Or.inr (Or.inr (Or.inr (by omega)))))))
                · -- champion unchanged
                  exact Or.inr (Or.inr (Or.inr (Or.inr (Or.inr (Or.inl (by omega))))))
            · -- champion unchanged
              by_cases hh6 : matchCount kws processIndicators < matchCount kws legalIndicators
              · -- legal becomes the champion
                by_cases hh7 : matchCount kws legalIndicators < matchCount kws faqIndicators
                · -- faq becomes the champion
                  exact Or.inr (Or.inr (Or.inr (Or.inr (Or.inr (Or.inr (Or.inr (by omega)))))))
                · -- champion unchanged
                  exact Or.inr (Or.inr (Or.inr (Or.inr (Or.inr (Or.inr (Or.inl (by omega)))))))
              · -- champion unchanged
                by_cases hh7 : matchCount kws processIndicators < matchCount kws faqIndicators
                · -- faq becomes the champion
                  exact Or.inr (Or.inr (Or.inr (Or.inr (Or.inr (Or.inr (Or.inr (by omega)))))))
                · -- champion unchanged
                  exact Or.inr (Or.inr (Or.inr (Or.inr (Or.inl (by omega)))))
          · -- champion unchanged
            by_cases hh5 : matchCount kws servicesIndicators < matchCount kws securityIndicators
            · -- security becomes the champion
              by_cases hh6 : matchCount kws securityIndicators < matchCount kws legalIndicators
              · -- legal becomes the champion
                by_cases hh7 : matchCount kws legalIndicators < matchCount kws faqIndicators
                · -- faq becomes the champion
                  exact Or.inr (Or.inr (Or.inr (Or.inr (Or.inr (Or.inr (Or.inr (by omega)))))))
                · -- champion unchanged
                  exact Or.inr (Or.inr (Or.inr (Or.inr (Or.inr (Or.inr (Or.inl (by omega)))))))
              · -- champion unchanged
                by_cases hh7 : matchCount kws securityIndicators < matchCount kws faqIndicators
                · -- faq becomes the champion
                  exact Or.inr (Or.inr (Or.inr (Or.inr (Or.inr (Or.inr (Or.inr (by omega)))))))
                · -- champion unchanged
                  exact Or.inr (Or.inr (Or.inr (Or.inr (Or.inr (Or.inl (by omega))))))
            · -- champion unchanged
              by_cases hh6 : matchCount kws servicesIndicators < matchCount kws legalIndicators
              · -- legal becomes the champion
                by_cases hh7 : matchCount kws legalIndicators < matchCount kws faqIndicators
                · -- faq becomes the champion
                  exact Or.inr (Or.inr (Or.inr (Or.inr (Or.inr (Or.inr (Or.inr (by omega)))))))
                · -- champion unchanged
                  exact Or.inr (Or.inr (Or.inr (Or.inr (Or.inr (Or.inr (Or.inl (by omega)))))))
              · -- champion unchanged
                by_cases hh7 : matchCount kws servicesIndicators < matchCount kws faqIndicators
                · -- faq becomes the champion
                  exact Or.inr (Or.inr (Or.inr (Or.inr (Or.inr (Or.inr (Or.inr (by omega)))))))
                · -- champion unchanged
                  exact Or.inr (Or.inl (by omega))
    · -- champion unchanged
      by_cases hh2 : 0 < matchCount kws pricingIndicators
      · -- pricing becomes the champion
        by_cases hh3 : matchCount kws pricingIndicators < matchCount kws supportIndicators
        · -- support becomes the champion
          by_cases hh4 : matchCount kws supportIndicators < matchCount kws processIndicators
          · -- process becomes the champion
            by_cases hh5 : matchCount kws processIndicators < matchCount kws securityIndicators
            · -- security becomes the champion
              by_cases hh6 : matchCount kws securityIndicators < matchCount kws legalIndicators
              · -- legal becomes the champion
                by_cases hh7 : matchCount kws legalIndicators < matchCount kws faqIndicators
                · -- faq becomes the champion
                  exact Or.inr (Or.inr (Or.inr (Or.inr (Or.inr (Or.inr (Or.inr (by omega)))))))
                · -- champion unchanged
                  exact Or.inr (Or.inr (Or.inr (Or.inr (Or.inr (Or.inr (Or.inl (by omega)))))))
              · -- champion unchanged
                by_cases hh7 : matchCount kws securityIndicators < matchCount kws faqIndicators
                · -- faq becomes the champion
                  exact Or.inr (Or.inr (Or.inr (Or.inr (Or.inr (Or.inr (Or.inr (by omega)))))))
                · -- champion unchanged
                  exact Or.inr (Or.inr (Or.inr (Or.inr (Or.inr (Or.inl (by omega))))))
            · -- champion unchanged
              by_cases hh6 : matchCount kws processIndicators < matchCount kws legalIndicators
              · -- legal becomes the champion
                by_cases hh7 : matchCount kws legalIndicators < matchCount kws faqIndicators
                · -- faq becomes the champion
                  exact Or.inr (Or.inr (Or.inr (Or.inr (Or.inr (Or.inr (Or.inr (by omega)))))))
                · -- champion unchanged
                  exact Or.inr (Or.inr (Or.inr (Or.inr (Or.inr (Or.inr (Or.inl (by omega)))))))
              · -- champion unchanged
                by_cases hh7 : matchCount kws processIndicators < matchCount kws faqIndicators
                · -- faq becomes the champion
                  exact Or.inr (Or.inr (Or.inr (Or.inr (Or.inr (Or.inr (Or.inr (by omega)))))))
                · -- champion unchanged
                  exact Or.inr (Or.inr (Or.inr (Or.inr (Or.inl (by omega)))))
          · -- champion unchanged
            by_cases hh5 : matchCount kws supportIndicators < matchCount kws securityIndicators
            · -- security becomes the champion
              by_cases hh6 : matchCount kws securityIndicators < matchCount kws legalIndicators
              · -- legal becomes the champion
                by_cases hh7 : matchCount kws legalIndicators < matchCount kws faqIndicators
                · -- faq becomes the champion
                  exact Or.inr (Or.inr (Or.inr (Or.inr (Or.inr (Or.inr (Or.inr (by omega)))))))
                · -- champion unchanged
                  exact Or.inr (Or.inr (Or.inr (Or.inr (Or.inr (Or.inr (Or.inl (by omega)))))))
              · -- champion unchanged
                by_cases hh7 : matchCount kws securityIndicators < matchCount kws faqIndicators
                · -- faq becomes the champion
                  exact Or.inr (Or.inr (Or.inr (Or.inr (Or.inr (Or.inr (Or.inr (by omega)))))))
                · -- champion unchanged
                  exact Or.inr (Or.inr (Or.inr (Or.inr (Or.inr (Or.inl (by omega))))))
            · -- champion unchanged
              by_cases hh6 : matchCount kws supportIndicators < matchCount kws legalIndicators
              · -- legal becomes the champion
                by_cases hh7 : matchCount kws legalIndicators < matchCount kws faqIndicators
                · -- faq becomes the champion
                  exact Or.inr (Or.inr (Or.inr (Or.inr (Or.inr (Or.inr (Or.inr (by omega)))))))
                · -- champion unchanged
                  exact Or.inr (Or.inr (Or.inr (Or.inr (Or.inr (Or.inr (Or.inl (by omega)))))))
              · -- champion unchanged
                by_cases hh7 : matchCount kws supportIndicators < matchCount kws faqIndicators
                · -- faq becomes the champion
                  exact Or.inr (Or.inr (Or.inr (Or.inr (Or.inr (Or.inr (Or.inr (by omega)))))))
                · -- champion unchanged
                  exact Or.inr (Or.inr (Or.inr (Or.inl (by omega))))
        · -- champion unchanged
          by_cases hh4 : matchCount kws pricingIndicators < matchCount kws processIndicators
          · -- process becomes the champion
            by_cases hh5 : matchCount kws processIndicators < matchCount kws securityIndicators
            · -- security becomes the champion
              by_cases hh6 : matchCount kws securityIndicators < matchCount kws legalIndicators
              · -- legal becomes the champion
                by_cases hh7 : matchCount kws legalIndicators < matchCount kws faqIndicators
                · -- faq becomes the champion
                  exact Or.inr (Or.inr (Or.inr (Or.inr (Or.inr (Or.inr (Or.inr (by omega)))))))
                · -- champion unchanged
                  exact Or.inr (Or.inr (Or.inr (Or.inr (Or.inr (Or.inr (Or.inl (by omega)))))))
              · -- champion unchanged
                by_cases hh7 : matchCount kws securityIndicators < matchCount kws faqIndicators
                · -- faq becomes the champion
                  exact Or.inr (Or.inr (Or.inr (Or.inr (Or.inr (Or.inr (Or.inr (by omega)))))))
                · -- champion unchanged
                  exact Or.inr (Or.inr (Or.inr (Or.inr (Or.inr (Or.inl (by omega))))))
            · -- champion unchanged
              by_cases hh6 : matchCount kws processIndicators < matchCount kws legalIndicators
              · -- legal becomes the champion
                by_cases hh7 : matchCount kws legalIndicators < matchCount kws faqIndicators
                · -- faq becomes the champion
                  exact Or.inr (Or.inr (Or.inr (Or.inr (Or.inr (Or.inr (Or.inr (by omega)))))))
                · -- champion unchanged
                  exact Or.inr (Or.inr (Or.inr (Or.inr (Or.inr (Or.inr (Or.inl (by omega)))))))
              · -- champion unchanged
                by_cases hh7 : matchCount kws processIndicators < matchCount kws faqIndicators
                · -- faq becomes the champion
                  exact Or.inr (Or.inr (Or.inr (Or.inr (Or.inr (Or.inr (Or.inr (by omega)))))))
                · -- champion unchanged
                  exact Or.inr (Or.inr (Or.inr (Or.inr (Or.inl (by omega)))))
          · -- champion unchanged
            by_cases hh5 : matchCount kws pricingIndicators < matchCount kws securityIndicators
            · -- security becomes the champion
              by_cases hh6 : matchCount kws securityIndicators < matchCount kws legalIndicators
              · -- legal becomes the champion
                by_cases hh7 : matchCount kws legalIndicators < matchCount kws faqIndicators
                · -- faq becomes the champion
                  exact Or.inr (Or.inr (Or.inr (Or.inr (Or.inr (Or.inr (Or.inr (by omega)))))))
                · -- champion unchanged
                  exact Or.inr (Or.inr (Or.inr (Or.inr (Or.inr (Or.inr (Or.inl (by omega)))))))
              · -- champion unchanged
                by_cases hh7 : matchCount kws securityIndicators < matchCount kws faqIndicators
                · -- faq becomes the champion
                  exact Or.inr (Or.inr (Or.inr (Or.inr (Or.inr (Or.inr (Or.inr (by omega)))))))
                · -- champion unchanged
                  exact Or.inr (Or.inr (Or.inr (Or.inr (Or.inr (Or.inl (by omega))))))
            · -- champion unchanged
              by_cases hh6 : matchCount kws pricingIndicators < matchCount kws legalIndicators
              · -- legal becomes the champion
                by_cases hh7 : matchCount kws legalIndicators < matchCount kws faqIndicators
                · -- faq becomes the champion
                  exact Or.inr (Or.inr (Or.inr (Or.inr (Or.inr (Or.inr (Or.inr (by omega)))))))
                · -- champion unchanged
                  exact Or.inr (Or.inr (Or.inr (Or.inr (Or.inr (Or.inr (Or.inl (by omega)))))))
              · -- champion unchanged
                by_cases hh7 : matchCount kws pricingIndicators < matchCount kws faqIndicators
                · -- faq becomes the champion
                  exact Or.inr (Or.inr (Or.inr (Or.inr (Or.inr (Or.inr (Or.inr (by omega)))))))
                · -- champion unchanged
                  exact Or.inr (Or.inr (Or.inl (by omega)))
      · -- champion unchanged
        by_cases hh3 : 0 < matchCount kws supportIndicators
        · -- support becomes the champion
          by_cases hh4 : matchCount kws supportIndicators < matchCount kws processIndicators
          · -- process becomes the champion
            by_cases hh5 : matchCount kws processIndicators < matchCount kws securityIndicators
            · -- security becomes the champion
              by_cases hh6 : matchCount kws securityIndicators < matchCount kws legalIndicators
              · -- legal becomes the champion
                by_cases hh7 : matchCount kws legalIndicators < matchCount kws faqIndicators
                · -- faq becomes the champion
                  exact Or.inr (Or.inr (Or.inr (Or.inr (Or.inr (Or.inr (Or.inr (by omega)))))))
                · -- champion unchanged
                  exact Or.inr (Or.inr (Or.inr (Or.inr (Or.inr (Or.inr (Or.inl (by omega)))))))
              · -- champion unchanged
                by_cases hh7 : matchCount kws securityIndicators < matchCount kws faqIndicators
                · -- faq becomes the champion
                  exact Or.inr (Or.inr (Or.inr (Or.inr (Or.inr (Or.inr (Or.inr (by omega)))))))
                · -- champion unchanged
                  exact Or.inr (Or.inr (Or.inr (Or.inr (Or.inr (Or.inl (by omega))))))
            · -- champion unchanged
              by_cases hh6 : matchCount kws processIndicators < matchCount kws legalIndicators
              · -- legal becomes the champion
                by_cases hh7 : matchCount kws legalIndicators < matchCount kws faqIndicators
                · -- faq becomes the champion
                  exact Or.inr (Or.inr (Or.inr (Or.inr (Or.inr (Or.inr (Or.inr (by omega)))))))
                · -- champion unchanged
                  exact Or.inr (Or.inr (Or.inr (Or.inr (Or.inr (Or.inr (Or.inl (by omega)))))))
              · -- champion unchanged
                by_cases hh7 : matchCount kws processIndicators < matchCount kws faqIndicators
                · -- faq becomes the champion
                  exact Or.inr (Or.inr (Or.inr (Or.inr (Or.inr (Or.inr (Or.inr (by omega)))))))
                · -- champion unchanged
                  exact Or.inr (Or.inr (Or.inr (Or.inr (Or.inl (by omega)))))
          · -- champion unchanged
            by_cases hh5 : matchCount kws supportIndicators < matchCount kws securityIndicators
            · -- security becomes the champion
              by_cases hh6 : matchCount kws securityIndicators < matchCount kws legalIndicators
              · -- legal becomes the champion
                by_cases hh7 : matchCount kws legalIndicators < matchCount kws faqIndicators
                · -- faq becomes the champion
                  exact Or.inr (Or.inr (Or.inr (Or.inr (Or.inr (Or.inr (Or.inr (by omega)))))))
                · -- champion unchanged
                  exact Or.inr (Or.inr (Or.inr (Or.inr (Or.inr (Or.inr (Or.inl (by omega)))))))
              · -- champion unchanged
                by_cases hh7 : matchCount kws securityIndicators < matchCount kws faqIndicators
                · -- faq becomes the champion
                  exact Or.inr (Or.inr (Or.inr (Or.inr (Or.inr (Or.inr (Or.inr (by omega)))))))
                · -- champion unchanged
                  exact Or.inr (Or.inr (Or.inr (Or.inr (Or.inr (Or.inl (by omega))))))
            · -- champion unchanged
              by_cases hh6 : matchCount kws supportIndicators < matchCount kws legalIndicators
              · -- legal becomes the champion
                by_cases hh7 : matchCount kws legalIndicators < matchCount kws faqIndicators
                · -- faq becomes the champion
                  exact Or.inr (Or.inr (Or.inr (Or.inr (Or.inr (Or.inr (Or.inr (by omega)))))))
                · -- champion unchanged
                  exact Or.inr (Or.inr (Or.inr (Or.inr (Or.inr (Or.inr (Or.inl (by omega)))))))
              · -- champion unchanged
                by_cases hh7 : matchCount kws supportIndicators < matchCount kws faqIndicators
                · -- faq becomes the champion
                  exact Or.inr (Or.inr (Or.inr (Or.inr (Or.inr (Or.inr (Or.inr (by omega)))))))
                · -- champion unchanged
                  exact Or.inr (Or.inr (Or.inr (Or.inl (by omega))))
        · -- champion unchanged
          by_cases hh4 : 0 < matchCount kws processIndicators
          · -- process becomes the champion
            by_cases hh5 : matchCount kws processIndicators < matchCount kws securityIndicators
            · -- security becomes the champion
              by_cases hh6 : matchCount kws securityIndicators < matchCount kws legalIndicators
              · -- legal becomes the champion
                by_cases hh7 : matchCount kws legalIndicators < matchCount kws faqIndicators
                · -- faq becomes the champion
                  exact Or.inr (Or.inr (Or.inr (Or.inr (Or.inr (Or.inr (Or.inr (by omega)))))))
                · -- champion unchanged
                  exact Or.inr (Or.inr (Or.inr (Or.inr (Or.inr (Or.inr (Or.inl (by omega)))))))
              · -- champion unchanged
                by_cases hh7 : matchCount kws securityIndicators < matchCount kws faqIndicators
                · -- faq becomes the champion
                  exact Or.inr (Or.inr (Or.inr (Or.inr (Or.inr (Or.inr (Or.inr (by omega)))))))
                · -- champion unchanged
                  exact Or.inr (Or.inr (Or.inr (Or.inr (Or.inr (Or.inl (by omega))))))
            · -- champion unchanged
              by_cases hh6 : matchCount kws processIndicators < matchCount kws legalIndicators
              · -- legal becomes the champion
                by_cases hh7 : matchCount kws legalIndicators < matchCount kws faqIndicators
                · -- faq becomes the champion
                  exact Or.inr (Or.inr (Or.inr (Or.inr (Or.inr (Or.inr (Or.inr (by omega)))))))
                · -- champion unchanged
                  exact Or.inr (Or.inr (Or.inr (Or.inr (Or.inr (Or.inr (Or.inl (by omega)))))))
              · -- champion unchanged
                by_cases hh7 : matchCount kws processIndicators < matchCount kws faqIndicators
                · -- faq becomes the champion
                  exact Or.inr (Or.inr (Or.inr (Or.inr (Or.inr (Or.inr (Or.inr (by omega)))))))
                · -- champion unchanged
                  exact Or.inr (Or.inr (Or.inr (Or.inr (Or.inl (by omega)))))
          · -- champion unchanged
            by_cases hh5 : 0 < matchCount kws securityIndicators
            · -- security becomes the champion
              by_cases hh6 : matchCount kws securityIndicators < matchCount kws legalIndicators
              · -- legal becomes the champion
                by_cases hh7 : matchCount kws legalIndicators < matchCount kws faqIndicators
                · -- faq becomes the champion
                  exact Or.inr (Or.inr (Or.inr (Or.inr (Or.inr (Or.inr (Or.inr (by omega)))))))
                · -- champion unchanged
                  exact Or.inr (Or.inr (Or.inr (Or.inr (Or.inr (Or.inr (Or.inl (by omega)))))))
              · -- champion unchanged
                by_cases hh7 : matchCount kws securityIndicators < matchCount kws faqIndicators
                · -- faq becomes the champion
                  exact Or.inr (Or.inr (Or.inr (Or.inr (Or.inr (Or.inr (Or.inr (by omega)))))))
                · -- champion unchanged
                  exact Or.inr (Or.inr (Or.inr (Or.inr (Or.inr (Or.inl (by omega))))))
            · -- champion unchanged
              by_cases hh6 : 0 < matchCount kws legalIndicators
              · -- legal becomes the champion
                by_cases hh7 : matchCount kws legalIndicators < matchCount kws faqIndicators
                · -- faq becomes the champion
                  exact Or.inr (Or.inr (Or.inr (Or.inr (Or.inr (Or.inr (Or.inr (by omega)))))))
                · -- champion unchanged
                  exact Or.inr (Or.inr (Or.inr (Or.inr (Or.inr (Or.inr (Or.inl (by omega)))))))
              · -- champion unchanged
                by_cases hh7 : 0 < matchCount kws faqIndicators
                · -- faq becomes the champion
                  exact Or.inr (Or.inr (Or.inr (Or.inr (Or.inr (Or.inr (Or.inr (by omega)))))))
                · -- champion unchanged
                  exact Or.inl (by omega)

  refine ⟨⟨?_, dqt_first_none kws⟩, ⟨?_, dqt_first_services kws⟩, ⟨?_, dqt_first_pricing kws⟩,
    ⟨?_, dqt_first_support kws⟩, ⟨?_, dqt_first_process kws⟩, ⟨?_, dqt_first_security kws⟩,
    ⟨?_, dqt_first_legal kws⟩, ⟨?_, dqt_first_faq kws⟩⟩
  · intro hd
    rcases hex with hx | hx | hx | hx | hx | hx | hx | hx
    · exact hx
    · rw [dqt_first_services kws hx] at hd
      simp at hd
    · rw [dqt_first_pricing kws hx] at hd
      simp at hd
    · rw [dqt_first_support kws hx] at hd
      simp at hd
    · rw [dqt_first_process kws hx] at hd
      simp at hd
    · rw [dqt_first_security kws hx] at hd
      simp at hd
    · rw [dqt_first_legal kws hx] at hd
      simp at hd
    · rw [dqt_first_faq kws hx] at hd
      simp at hd
  · intro hd
    rcases hex with hx | hx | hx | hx | hx | hx | hx | hx
    · rw [dqt_first_none kws hx] at hd
      simp at hd
    · exact hx
    · rw [dqt_first_pricing kws hx] at hd
      simp at hd
    · rw [dqt_first_support kws hx] at hd
      simp at hd
    · rw [dqt_first_process kws hx] at hd
      simp at hd
    · rw [dqt_first_security kws hx] at hd
      simp at hd
    · rw [dqt_first_legal kws hx] at hd
      simp at hd
    · rw [dqt_first_faq kws hx] at hd
      simp at hd
  · intro hd
    rcases hex with hx | hx | hx | hx | hx | hx | hx | hx
    · rw [dqt_first_none kws hx] at hd
      simp at hd
    · rw [dqt_first_services kws hx] at hd
      simp at hd
    · exact hx
    · rw [dqt_first_support kws hx] at hd
      simp at hd
    · rw [dqt_first_process kws hx] at hd
      simp at hd
    · rw [dqt_first_security kws hx] at hd
      simp at hd
    · rw [dqt_first_legal kws hx] at hd
      simp at hd
    · rw [dqt_first_faq kws hx] at hd
      simp at hd
  · intro hd
    rcases hex with hx | hx | hx | hx | hx | hx | hx | hx
    · rw [dqt_first_none kws hx] at hd
      simp at hd
    · rw [dqt_first_services kws hx] at hd
      simp at hd
    · rw [dqt_first_pricing kws hx] at hd
      simp at hd
    · exact hx
    · rw [dqt_first_process kws hx] at hd
      simp at hd
    · rw [dqt_first_security kws hx] at hd
      simp at hd
    · rw [dqt_first_legal kws hx] at hd
      simp at hd
    · rw [dqt_first_faq kws hx] at hd
      simp at hd
  · intro hd
    rcases hex with hx | hx | hx | hx | hx | hx | hx | hx
    · rw [dqt_first_none kws hx] at hd
      simp at hd
    · rw [dqt_first_services kws hx] at hd
      simp at hd
    · rw [dqt_first_pricing kws hx] at hd
      simp at hd
    · rw [dqt_first_support kws hx] at hd
      simp at hd
    · exact hx
    · rw [dqt_first_security kws hx] at hd
      simp at hd
    · rw [dqt_first_legal kws hx] at hd
      simp at hd
    · rw [dqt_first_faq kws hx] at hd
      simp at hd
  · intro hd
    rcases hex with hx | hx | hx | hx | hx | hx | hx | hx
    · rw [dqt_first_none kws hx] at hd
      simp at hd
    · rw [dqt_first_services kws hx] at hd
      simp at hd
    · rw [dqt_first_pricing kws hx] at hd
      simp at hd
    · rw [dqt_first_support kws hx] at hd
      simp at hd
    · rw [dqt_first_process kws hx] at hd
      simp at hd
    · exact hx
    · rw [dqt_first_legal kws hx] at hd
      simp at hd
    · rw [dqt_first_faq kws hx] at hd
      simp at hd
  · intro hd
    rcases hex with hx | hx | hx | hx | hx | hx | hx | hx
    · rw [dqt_first_none kws hx] at hd
      simp at hd
    · rw [dqt_first_services kws hx] at hd
      simp at hd
    · rw [dqt_first_pricing kws hx] at hd
      simp at hd
    · rw [dqt_first_support kws hx] at hd
      simp at hd
    · rw [dqt_first_process kws hx] at hd
      simp at hd
    · rw [dqt_first_security kws hx] at hd
      simp at hd
    · exact hx
    · rw [dqt_first_faq kws hx] at hd
      simp at hd
  · intro hd
    rcases hex with hx | hx | hx | hx | hx | hx | hx | hx
    · rw [dqt_first_none kws hx] at hd
      simp at hd
    · rw [dqt_first_services kws hx] at hd
      simp at hd
    · rw [dqt_first_pricing kws hx] at hd
      simp at hd
    · rw [dqt_first_support kws hx] at hd
      simp at hd
    · rw [dqt_first_process kws hx] at hd
      simp at hd
    · rw [dqt_first_security kws hx] at hd
      simp at hd
    · rw [dqt_first_legal kws hx] at hd
      simp at hd
    · exact hx
